import Mathlib

/-!
# QuickIM — formal model of the wire protocol and server routing logic

This file is a shallow embedding, in Lean 4, of the QuickIM repository's
`protocol.py` (binary wire codec) and `server.py` (session / registry /
routing engine), together with theorems settling the specification claims
about them.

Conventions of the embedding:

* Python `bytes` values are modelled as `List Nat`, one entry per byte
  (a real byte satisfies `< 256`; validity predicates state this where it
  matters).
* Python `str` values inside wire messages are modelled by their UTF-8
  encodings, i.e. as `List Nat` of bytes.  `str.encode('utf-8')` /
  `bytes.decode('utf-8')` form a bijection between Python strings and
  valid-UTF-8 byte sequences, so equality of the byte lists is equality of
  the strings; `utf8Valid` below is the image of that bijection
  (`bytes.decode('utf-8')` raises exactly on byte sequences outside it).
* Machine integers are `Nat` with explicit `% 2 ^ w` where the Python code
  can overflow; `struct.pack` bounds appear as validity hypotheses.
* Fallible operations return `Option` / an explicit result type.
* `BinaryReader` keeps `(data, offset)` in the source and only ever looks at
  `data[offset:]`; the model carries the remaining suffix `data.drop offset`
  instead, which is an exact correspondence: every primitive read fails on
  `(data, offset)` iff it fails on the suffix, `data[a:b]` is
  `(data.drop a).take (b - a)`, and an offset pushed past the end by the
  truncating string/blob reads corresponds to the empty suffix.
-/

namespace QuickIM

/-- Protocol constants from `protocol.py`: `PROTOCOL_MAGIC = b'QP'` is the
bytes `[0x51, 0x50]`. -/
def PROTOCOL_MAGIC : List Nat := [0x51, 0x50]

def PROTOCOL_VERSION : Nat := 0x01

def HEADER_SIZE : Nat := 9

def MAX_MESSAGE_SIZE : Nat := 10 * 1024 * 1024

def MAX_AVATAR_SIZE : Nat := 512 * 1024

/-- `class Command(IntEnum)` from `protocol.py`. -/
inductive Command
  | QPROTO_REGISTER
  | QPROTO_LOGIN
  | QPROTO_LOGOUT
  | QPROTO_MSG_SEND
  | QPROTO_MSG_RECEIVE
  | QPROTO_MSG_ACK
  | QPROTO_CONTACT_ADD
  | QPROTO_CONTACT_REMOVE
  | QPROTO_CONTACT_LIST_REQ
  | QPROTO_CONTACT_LIST
  | QPROTO_USER_SEARCH
  | QPROTO_USER_SEARCH_RES
  | QPROTO_USER_LIST_REQ
  | QPROTO_USER_LIST
  | QPROTO_PRESENCE
  | QPROTO_RESPONSE
  | QPROTO_ERROR
  | QPROTO_EARTHQUAKE_SEND
  | QPROTO_EARTHQUAKE_RECV
  | QPROTO_AVATAR_SET
  | QPROTO_AVATAR_GET
  | QPROTO_AVATAR_DATA
deriving DecidableEq, Repr

/-- The numeric code of each command, as declared in the `Command` IntEnum. -/
def Command.toNat : Command → Nat
  | .QPROTO_REGISTER => 0x0001
  | .QPROTO_LOGIN => 0x0002
  | .QPROTO_LOGOUT => 0x0003
  | .QPROTO_MSG_SEND => 0x0100
  | .QPROTO_MSG_RECEIVE => 0x0101
  | .QPROTO_MSG_ACK => 0x0102
  | .QPROTO_CONTACT_ADD => 0x0200
  | .QPROTO_CONTACT_REMOVE => 0x0201
  | .QPROTO_CONTACT_LIST_REQ => 0x0202
  | .QPROTO_CONTACT_LIST => 0x0203
  | .QPROTO_USER_SEARCH => 0x0300
  | .QPROTO_USER_SEARCH_RES => 0x0301
  | .QPROTO_USER_LIST_REQ => 0x0302
  | .QPROTO_USER_LIST => 0x0303
  | .QPROTO_PRESENCE => 0x0400
  | .QPROTO_RESPONSE => 0x0500
  | .QPROTO_ERROR => 0x0501
  | .QPROTO_EARTHQUAKE_SEND => 0x0600
  | .QPROTO_EARTHQUAKE_RECV => 0x0601
  | .QPROTO_AVATAR_SET => 0x0700
  | .QPROTO_AVATAR_GET => 0x0701
  | .QPROTO_AVATAR_DATA => 0x0702

/-- `Command(value)`: the IntEnum constructor, `none` when the Python call
would raise `ValueError`. -/
def Command.ofCode (n : Nat) : Option Command :=
  if n = 0x0001 then some .QPROTO_REGISTER
  else if n = 0x0002 then some .QPROTO_LOGIN
  else if n = 0x0003 then some .QPROTO_LOGOUT
  else if n = 0x0100 then some .QPROTO_MSG_SEND
  else if n = 0x0101 then some .QPROTO_MSG_RECEIVE
  else if n = 0x0102 then some .QPROTO_MSG_ACK
  else if n = 0x0200 then some .QPROTO_CONTACT_ADD
  else if n = 0x0201 then some .QPROTO_CONTACT_REMOVE
  else if n = 0x0202 then some .QPROTO_CONTACT_LIST_REQ
  else if n = 0x0203 then some .QPROTO_CONTACT_LIST
  else if n = 0x0300 then some .QPROTO_USER_SEARCH
  else if n = 0x0301 then some .QPROTO_USER_SEARCH_RES
  else if n = 0x0302 then some .QPROTO_USER_LIST_REQ
  else if n = 0x0303 then some .QPROTO_USER_LIST
  else if n = 0x0400 then some .QPROTO_PRESENCE
  else if n = 0x0500 then some .QPROTO_RESPONSE
  else if n = 0x0501 then some .QPROTO_ERROR
  else if n = 0x0600 then some .QPROTO_EARTHQUAKE_SEND
  else if n = 0x0601 then some .QPROTO_EARTHQUAKE_RECV
  else if n = 0x0700 then some .QPROTO_AVATAR_SET
  else if n = 0x0701 then some .QPROTO_AVATAR_GET
  else if n = 0x0702 then some .QPROTO_AVATAR_DATA
  else none

/-- `class ResponseCode(IntEnum)`. -/
inductive ResponseCode
  | SUCCESS
  | FAIL
deriving DecidableEq, Repr

def ResponseCode.toNat : ResponseCode → Nat
  | .SUCCESS => 0x00
  | .FAIL => 0x01

def ResponseCode.ofCode (n : Nat) : Option ResponseCode :=
  if n = 0 then some .SUCCESS else if n = 1 then some .FAIL else none

/-- `class PresenceStatus(IntEnum)`. -/
inductive PresenceStatus
  | OFFLINE
  | ONLINE
deriving DecidableEq, Repr

def PresenceStatus.toNat : PresenceStatus → Nat
  | .OFFLINE => 0x00
  | .ONLINE => 0x01

def PresenceStatus.ofCode (n : Nat) : Option PresenceStatus :=
  if n = 0 then some .OFFLINE else if n = 1 then some .ONLINE else none

/-- `class AckStatus(IntEnum)`. -/
inductive AckStatus
  | DELIVERED
  | USER_OFFLINE
  | DELIVERY_FAILED
  | INVALID_MESSAGE
deriving DecidableEq, Repr

def AckStatus.toNat : AckStatus → Nat
  | .DELIVERED => 0x00
  | .USER_OFFLINE => 0x01
  | .DELIVERY_FAILED => 0x02
  | .INVALID_MESSAGE => 0x03

def AckStatus.ofCode (n : Nat) : Option AckStatus :=
  if n = 0 then some .DELIVERED
  else if n = 1 then some .USER_OFFLINE
  else if n = 2 then some .DELIVERY_FAILED
  else if n = 3 then some .INVALID_MESSAGE
  else none

/-- `class ActionCode(IntEnum)`. -/
inductive ActionCode
  | REGISTER
  | LOGIN
  | LOGOUT
  | ADD_CONTACT
  | REMOVE_CONTACT
  | AVATAR_SET
deriving DecidableEq, Repr

def ActionCode.toNat : ActionCode → Nat
  | .REGISTER => 0x01
  | .LOGIN => 0x02
  | .LOGOUT => 0x03
  | .ADD_CONTACT => 0x04
  | .REMOVE_CONTACT => 0x05
  | .AVATAR_SET => 0x06

def ActionCode.ofCode (n : Nat) : Option ActionCode :=
  if n = 1 then some .REGISTER
  else if n = 2 then some .LOGIN
  else if n = 3 then some .LOGOUT
  else if n = 4 then some .ADD_CONTACT
  else if n = 5 then some .REMOVE_CONTACT
  else if n = 6 then some .AVATAR_SET
  else none

/-! ## BinaryWriter

The writer methods of `BinaryWriter` append to a growing buffer; each method
is modelled as the byte list it appends (`struct.pack` big-endian).  For an
in-range argument `[v % 256, ...]` equals the packed bytes; out of range,
`struct.pack` raises, which the validity predicates below exclude. -/

def write_uint8 (v : Nat) : List Nat := [v % 256]

def write_uint16 (v : Nat) : List Nat := [v / 256 % 256, v % 256]

def write_uint32 (v : Nat) : List Nat :=
  [v / 16777216 % 256, v / 65536 % 256, v / 256 % 256, v % 256]

/-- `write_string`: 2-byte big-endian length prefix, then the UTF-8 bytes. -/
def write_string (s : List Nat) : List Nat := write_uint16 s.length ++ s

/-- `write_bytes`: 4-byte big-endian length prefix, then the raw bytes. -/
def write_bytes (b : List Nat) : List Nat := write_uint32 b.length ++ b

/-! ## UTF-8 validity

`bytes.decode('utf-8')` succeeds exactly on the well-formed UTF-8 byte
sequences: ASCII; 2-byte forms with lead `C2..DF`; 3-byte forms with lead
`E0..EF` (lead `E0` requires first continuation `A0..BF` to exclude overlong
forms, lead `ED` requires `80..9F` to exclude surrogates); 4-byte forms with
lead `F0..F4` (lead `F0` requires `90..BF`, lead `F4` requires `80..8F` to
stay at or below U+10FFFF).  Continuation bytes are `80..BF`. -/

def isUtf8Cont (b : Nat) : Bool := 0x80 ≤ b && b ≤ 0xBF

def utf8Valid : List Nat → Bool
  | [] => true
  | b :: rest =>
    if b ≤ 0x7F then utf8Valid rest
    else if 0xC2 ≤ b ∧ b ≤ 0xDF then
      match rest with
      | c1 :: r => isUtf8Cont c1 && utf8Valid r
      | [] => false
    else if 0xE0 ≤ b ∧ b ≤ 0xEF then
      match rest with
      | c1 :: c2 :: r =>
        (if b = 0xE0 then decide (0xA0 ≤ c1 ∧ c1 ≤ 0xBF)
         else if b = 0xED then decide (0x80 ≤ c1 ∧ c1 ≤ 0x9F)
         else isUtf8Cont c1) && isUtf8Cont c2 && utf8Valid r
      | _ => false
    else if 0xF0 ≤ b ∧ b ≤ 0xF4 then
      match rest with
      | c1 :: c2 :: c3 :: r =>
        (if b = 0xF0 then decide (0x90 ≤ c1 ∧ c1 ≤ 0xBF)
         else if b = 0xF4 then decide (0x80 ≤ c1 ∧ c1 ≤ 0x8F)
         else isUtf8Cont c1) && isUtf8Cont c2 && isUtf8Cont c3 && utf8Valid r
      | _ => false
    else false

/-! ## BinaryReader

Each read takes the remaining byte suffix and yields `(value, rest)`,
`none` where the Python method raises.  `read_uint8/16/32` use
`struct.unpack_from`, which raises `struct.error` when fewer bytes remain
than the format needs.  `read_string` and `read_bytes` slice
`data[offset:offset+length]`, and a Python slice never raises: when the
declared length runs past the available data it silently yields only the
available bytes.  `read_string` then applies `.decode('utf-8')`, which
raises (here: `none`) iff the sliced bytes are not valid UTF-8. -/

def read_uint8 : List Nat → Option (Nat × List Nat)
  | b :: rest => some (b, rest)
  | [] => none

def read_uint16 : List Nat → Option (Nat × List Nat)
  | b0 :: b1 :: rest => some (256 * b0 + b1, rest)
  | _ => none

def read_uint32 : List Nat → Option (Nat × List Nat)
  | b0 :: b1 :: b2 :: b3 :: rest =>
    some (((b0 * 256 + b1) * 256 + b2) * 256 + b3, rest)
  | _ => none

def read_string (data : List Nat) : Option (List Nat × List Nat) :=
  match read_uint16 data with
  | none => none
  | some (len, rest) =>
    let s := rest.take len
    if utf8Valid s then some (s, rest.drop len) else none

def read_bytes (data : List Nat) : Option (List Nat × List Nat) :=
  match read_uint32 data with
  | none => none
  | some (len, rest) => some (rest.take len, rest.drop len)

/-! ## Message classes -/

/-- `ContactInfo` dataclass: username (as UTF-8 bytes) and presence. -/
structure ContactInfo where
  username : List Nat
  status : PresenceStatus
deriving DecidableEq, Repr

/-- The tagged union of message dataclasses from `protocol.py`, one
constructor per concrete `Message` subclass, string fields carried as their
UTF-8 byte encodings. -/
inductive Message
  | RegisterMessage (username password : List Nat)
  | LoginMessage (username password : List Nat)
  | LogoutMessage
  | SendMsgMessage (to_user content msg_id : List Nat)
  | ReceiveMsgMessage (from_user content msg_id timestamp : List Nat)
  | MsgAckMessage (msg_id : List Nat) (status : AckStatus)
  | AddContactMessage (contact : List Nat)
  | RemoveContactMessage (contact : List Nat)
  | ContactListReqMessage
  | ContactListMessage (contacts : List ContactInfo)
  | UserSearchMessage (query : List Nat)
  | UserSearchResultMessage (users : List (List Nat))
  | PresenceMessage (username : List Nat) (status : PresenceStatus)
  | ResponseMessage (action : ActionCode) (code : ResponseCode) (message : List Nat)
  | ErrorMessage (message : List Nat)
  | EarthquakeSendMessage (to_user : List Nat) (intensity : Nat)
  | EarthquakeRecvMessage (from_user : List Nat) (intensity : Nat)
  | AvatarSetMessage (avatar_data : List Nat)
  | AvatarGetMessage (username : List Nat)
  | AvatarDataMessage (username : List Nat) (avatar_data : List Nat)
deriving DecidableEq, Repr

/-- The `command` attribute each subclass constructor installs. -/
def Message.command : Message → Command
  | .RegisterMessage _ _ => .QPROTO_REGISTER
  | .LoginMessage _ _ => .QPROTO_LOGIN
  | .LogoutMessage => .QPROTO_LOGOUT
  | .SendMsgMessage _ _ _ => .QPROTO_MSG_SEND
  | .ReceiveMsgMessage _ _ _ _ => .QPROTO_MSG_RECEIVE
  | .MsgAckMessage _ _ => .QPROTO_MSG_ACK
  | .AddContactMessage _ => .QPROTO_CONTACT_ADD
  | .RemoveContactMessage _ => .QPROTO_CONTACT_REMOVE
  | .ContactListReqMessage => .QPROTO_CONTACT_LIST_REQ
  | .ContactListMessage _ => .QPROTO_CONTACT_LIST
  | .UserSearchMessage _ => .QPROTO_USER_SEARCH
  | .UserSearchResultMessage _ => .QPROTO_USER_SEARCH_RES
  | .PresenceMessage _ _ => .QPROTO_PRESENCE
  | .ResponseMessage _ _ _ => .QPROTO_RESPONSE
  | .ErrorMessage _ => .QPROTO_ERROR
  | .EarthquakeSendMessage _ _ => .QPROTO_EARTHQUAKE_SEND
  | .EarthquakeRecvMessage _ _ => .QPROTO_EARTHQUAKE_RECV
  | .AvatarSetMessage _ => .QPROTO_AVATAR_SET
  | .AvatarGetMessage _ => .QPROTO_AVATAR_GET
  | .AvatarDataMessage _ _ => .QPROTO_AVATAR_DATA

/-- The per-contact bytes the `ContactListMessage` branch of
`encode_message` writes inside its loop. -/
def encodeContacts : List ContactInfo → List Nat
  | [] => []
  | c :: cs => write_string c.username ++ write_uint8 c.status.toNat ++ encodeContacts cs

/-- The per-user bytes the `UserSearchResultMessage` branch of
`encode_message` writes inside its loop. -/
def encodeUsers : List (List Nat) → List Nat
  | [] => []
  | u :: us => write_string u ++ encodeUsers us

/-- The payload bytes `encode_message` accumulates in its `BinaryWriter`
before framing, one branch per `isinstance` arm. -/
def encodePayload : Message → List Nat
  | .RegisterMessage u p => write_string u ++ write_string p
  | .LoginMessage u p => write_string u ++ write_string p
  | .LogoutMessage => []
  | .SendMsgMessage to_user content msg_id =>
    write_string to_user ++ write_string content ++ write_string msg_id
  | .ReceiveMsgMessage from_user content msg_id timestamp =>
    write_string from_user ++ write_string content ++ write_string msg_id ++
      write_string timestamp
  | .MsgAckMessage msg_id status => write_string msg_id ++ write_uint8 status.toNat
  | .AddContactMessage c => write_string c
  | .RemoveContactMessage c => write_string c
  | .ContactListReqMessage => []
  | .ContactListMessage cs => write_uint16 cs.length ++ encodeContacts cs
  | .UserSearchMessage q => write_string q
  | .UserSearchResultMessage us => write_uint16 us.length ++ encodeUsers us
  | .PresenceMessage u st => write_string u ++ write_uint8 st.toNat
  | .ResponseMessage a c m => write_uint8 a.toNat ++ write_uint8 c.toNat ++ write_string m
  | .ErrorMessage m => write_string m
  | .EarthquakeSendMessage to_user i => write_string to_user ++ write_uint8 i
  | .EarthquakeRecvMessage f i => write_string f ++ write_uint8 i
  | .AvatarSetMessage d => write_bytes d
  | .AvatarGetMessage u => write_string u
  | .AvatarDataMessage u d => write_string u ++ write_bytes d

/-- The frame assembly at the end of `encode_message`: magic, version,
2-byte command code, 4-byte payload length, payload. -/
def encodeFrame (cmd : Command) (payload : List Nat) : List Nat :=
  PROTOCOL_MAGIC ++ [PROTOCOL_VERSION] ++ write_uint16 cmd.toNat ++
    write_uint32 payload.length ++ payload

/-- `encode_message(msg)` from `protocol.py`. -/
def encode_message (m : Message) : List Nat :=
  encodeFrame m.command (encodePayload m)

/-- The outcome of `decode_message`: the Python function returns `None` for
an input shorter than the header, raises for header-level violations
(`ValueError`) and for reader failures inside the payload (`struct.error`
from `unpack_from`, `UnicodeDecodeError` from `.decode('utf-8')`,
`ValueError` from an out-of-range IntEnum value), and otherwise returns a
`Message`. -/
inductive DecodeResult
  | retNone
  | err (msg : String)
  | ok (m : Message)
deriving DecidableEq, Repr

/-- The per-command payload parsing in the body of `decode_message`:
the chain of `reader.read_*` calls and IntEnum conversions of the branch
selected by `cmd`.  `none` stands for any exception raised by a read or an
enum conversion.  A branch never checks that the payload is fully consumed,
so trailing payload bytes are ignored, as in the source. -/
def parseContacts : Nat → List Nat → Option (List ContactInfo × List Nat)
  | 0, data => some ([], data)
  | n + 1, data => do
    let (u, r1) ← read_string data
    let (b, r2) ← read_uint8 r1
    let st ← PresenceStatus.ofCode b
    let (cs, rest) ← parseContacts n r2
    some (ContactInfo.mk u st :: cs, rest)

def parseUsers : Nat → List Nat → Option (List (List Nat) × List Nat)
  | 0, data => some ([], data)
  | n + 1, data => do
    let (u, r1) ← read_string data
    let (us, rest) ← parseUsers n r1
    some (u :: us, rest)

def parsePayload (cmd : Command) (p : List Nat) : Option Message :=
  match cmd with
  | .QPROTO_REGISTER => do
    let (u, p) ← read_string p
    let (pw, _) ← read_string p
    some (.RegisterMessage u pw)
  | .QPROTO_LOGIN => do
    let (u, p) ← read_string p
    let (pw, _) ← read_string p
    some (.LoginMessage u pw)
  | .QPROTO_LOGOUT => some .LogoutMessage
  | .QPROTO_MSG_SEND => do
    let (to_user, p) ← read_string p
    let (content, p) ← read_string p
    let (msg_id, _) ← read_string p
    some (.SendMsgMessage to_user content msg_id)
  | .QPROTO_MSG_RECEIVE => do
    let (f, p) ← read_string p
    let (content, p) ← read_string p
    let (msg_id, p) ← read_string p
    let (ts, _) ← read_string p
    some (.ReceiveMsgMessage f content msg_id ts)
  | .QPROTO_MSG_ACK => do
    let (msg_id, p) ← read_string p
    let (b, _) ← read_uint8 p
    let st ← AckStatus.ofCode b
    some (.MsgAckMessage msg_id st)
  | .QPROTO_CONTACT_ADD => do
    let (c, _) ← read_string p
    some (.AddContactMessage c)
  | .QPROTO_CONTACT_REMOVE => do
    let (c, _) ← read_string p
    some (.RemoveContactMessage c)
  | .QPROTO_CONTACT_LIST_REQ => some .ContactListReqMessage
  | .QPROTO_CONTACT_LIST => do
    let (count, p) ← read_uint16 p
    let (cs, _) ← parseContacts count p
    some (.ContactListMessage cs)
  | .QPROTO_USER_SEARCH => do
    let (q, _) ← read_string p
    some (.UserSearchMessage q)
  | .QPROTO_USER_SEARCH_RES => do
    let (count, p) ← read_uint16 p
    let (us, _) ← parseUsers count p
    some (.UserSearchResultMessage us)
  | .QPROTO_USER_LIST_REQ => none
  | .QPROTO_USER_LIST => none
  | .QPROTO_PRESENCE => do
    let (u, p) ← read_string p
    let (b, _) ← read_uint8 p
    let st ← PresenceStatus.ofCode b
    some (.PresenceMessage u st)
  | .QPROTO_RESPONSE => do
    let (a, p) ← read_uint8 p
    let act ← ActionCode.ofCode a
    let (c, p) ← read_uint8 p
    let code ← ResponseCode.ofCode c
    let (m, _) ← read_string p
    some (.ResponseMessage act code m)
  | .QPROTO_ERROR => do
    let (m, _) ← read_string p
    some (.ErrorMessage m)
  | .QPROTO_EARTHQUAKE_SEND => do
    let (to_user, p) ← read_string p
    let (i, _) ← read_uint8 p
    some (.EarthquakeSendMessage to_user i)
  | .QPROTO_EARTHQUAKE_RECV => do
    let (f, p) ← read_string p
    let (i, _) ← read_uint8 p
    some (.EarthquakeRecvMessage f i)
  | .QPROTO_AVATAR_SET => do
    let (d, _) ← read_bytes p
    some (.AvatarSetMessage d)
  | .QPROTO_AVATAR_GET => do
    let (u, _) ← read_string p
    some (.AvatarGetMessage u)
  | .QPROTO_AVATAR_DATA => do
    let (u, p) ← read_string p
    let (d, _) ← read_bytes p
    some (.AvatarDataMessage u d)

/-- `decode_message(data)` from `protocol.py`.  Returns `.none` for inputs
shorter than `HEADER_SIZE` (the source's `return None`); checks magic then
version, slices `payload = data[9 : 9 + payload_len]`, converts the command
code, and dispatches on it.  `QPROTO_USER_LIST_REQ` and `QPROTO_USER_LIST`
are defined commands with no branch in either `encode_message` or
`decode_message`; for them the dispatch falls to the final
`raise ValueError(f"Unhandled command: ...")`, and `encode_message` cannot
produce them since no `Message` subclass carries those codes (modelled by
`parsePayload` returning `none`, folded into `.err` below). -/
def decode_message (data : List Nat) : DecodeResult :=
  match data with
  | m0 :: m1 :: v :: c0 :: c1 :: l0 :: l1 :: l2 :: l3 :: rest =>
    if m0 = 0x51 ∧ m1 = 0x50 then
      if v = PROTOCOL_VERSION then
        let command := 256 * c0 + c1
        let payload_len := ((l0 * 256 + l1) * 256 + l2) * 256 + l3
        let payload := rest.take payload_len
        match Command.ofCode command with
        | Option.none => .err "Unknown command"
        | Option.some cmd =>
          match parsePayload cmd payload with
          | Option.none => .err "payload decode failure"
          | Option.some m => .ok m
      else .err "Unsupported protocol version"
    else .err "Invalid magic bytes"
  | _ => .retNone

/-! ## Validity of a message's field values

The values for which the Python encoder is defined and the fields denote
real wire data: string fields are valid UTF-8 of at most 65535 bytes (the
2-byte length prefix; `write_string` would otherwise hand `struct.pack('>H')`
an out-of-range length); blob fields are real bytes within the 10 MiB
payload limit; uint8 fields are in 0–255; list counts fit the 2-byte count
prefix, and for the two list-carrying variants the assembled payload must
fit the 4-byte frame length field (`struct.pack('>I')`). -/

def validStr (s : List Nat) : Bool := utf8Valid s && s.length ≤ 65535

def validBlob (b : List Nat) : Bool :=
  b.length ≤ MAX_MESSAGE_SIZE && b.all (fun x => x < 256)

def validMessage : Message → Bool
  | .RegisterMessage u p => validStr u && validStr p
  | .LoginMessage u p => validStr u && validStr p
  | .LogoutMessage => true
  | .SendMsgMessage to_user content msg_id =>
    validStr to_user && validStr content && validStr msg_id
  | .ReceiveMsgMessage f c m t => validStr f && validStr c && validStr m && validStr t
  | .MsgAckMessage msg_id _ => validStr msg_id
  | .AddContactMessage c => validStr c
  | .RemoveContactMessage c => validStr c
  | .ContactListReqMessage => true
  | .ContactListMessage cs =>
    decide (cs.length ≤ 65535) && cs.all (fun c => validStr c.username) &&
      decide ((encodeContacts cs).length < 4294967294)
  | .UserSearchMessage q => validStr q
  | .UserSearchResultMessage us =>
    decide (us.length ≤ 65535) && us.all validStr &&
      decide ((encodeUsers us).length < 4294967294)
  | .PresenceMessage u _ => validStr u
  | .ResponseMessage _ _ m => validStr m
  | .ErrorMessage m => validStr m
  | .EarthquakeSendMessage to_user i => validStr to_user && decide (i ≤ 255)
  | .EarthquakeRecvMessage f i => validStr f && decide (i ≤ 255)
  | .AvatarSetMessage d => validBlob d
  | .AvatarGetMessage u => validStr u
  | .AvatarDataMessage u d => validStr u && validBlob d

/-! ## Server model (`server.py`)

The server handlers are modelled as pure functions from the pre-state to the
post-state plus a trace of effects.  Usernames, passwords and message
contents are Lean `String`s here (the handlers manipulate decoded Python
`str` values; the wire-level byte representation above is not needed for the
routing logic).  The persistent store (`Database`) is an external
collaborator and is passed in as an oracle of pure functions; the network is
represented by a per-socket health oracle `sendOk : Nat → Bool` giving the
result of `Session.send` (which returns `False` on any socket error and
never raises).  `datetime.now().isoformat()` is passed in as the `now`
argument. -/

/-- The ASCII whitespace characters `str.strip()` removes (Python also
strips the rarer Unicode space characters; the ASCII set is where every
behavior in the claims lives). -/
def isPyWhitespace (c : Char) : Bool :=
  c = ' ' || c = '\t' || c = '\n' || c = '\r' || c = '\x0b' || c = '\x0c'

/-- Python `str.strip()` with no argument: remove leading and trailing
whitespace. -/
def pyStrip (s : String) : String :=
  ⟨((s.data.dropWhile isPyWhitespace).reverse.dropWhile isPyWhitespace).reverse⟩

/-- Python `str.isalnum()` (empty string is falsy): approximated over the
alphanumeric characters. -/
def pyIsalnum (s : String) : Bool := s ≠ "" && s.toList.all Char.isAlphanum

/-- `class ClientSession`: socket handle (identified by `sid`), optional
authenticated username and user id, authenticated flag.  The per-session
write lock serializes whole-frame writes and has no sequential content. -/
structure ClientSession where
  sid : Nat
  username : Option String
  user_id : Option Nat
  authenticated : Bool
deriving DecidableEq, Repr

/-- The outbound messages the server constructs via the `build_*` helpers of
`protocol.py` (string fields as `String` at this level). -/
inductive SMsg
  | response (action : ActionCode) (code : ResponseCode) (message : String)
  | error (message : String)
  | msg_ack (msg_id : String) (status : AckStatus)
  | receive_msg (from_user content msg_id timestamp : String)
  | presence (username : String) (status : PresenceStatus)
  | earthquake_recv (from_user : String) (intensity : Nat)
  | contact_list (contacts : List (String × PresenceStatus))
  | user_search_result (users : List String)
  | avatar_data (username : String) (data : List Nat)
deriving DecidableEq, Repr

/-- Observable steps of a handler, in program order: a `Session.send` with
its target socket and result, a `self.clients` lookup/membership test, a
`db.authenticate_user` call, and a `self.clients` insertion/deletion. -/
inductive Effect
  | send (target : Nat) (m : SMsg) (ok : Bool)
  | registryLookup (username : String)
  | authQuery (username password : String)
  | registryInsert (username : String) (sid : Nat)
  | registryRemove (username : String)
deriving DecidableEq, Repr

def Effect.isAuthQuery : Effect → Bool
  | .authQuery _ _ => true
  | _ => false

def Effect.isRegistryInsert : Effect → Bool
  | .registryInsert _ _ => true
  | _ => false

def Effect.isRegistryRemove : Effect → Bool
  | .registryRemove _ => true
  | _ => false

def Effect.isRegistryLookup : Effect → Bool
  | .registryLookup _ => true
  | _ => false

/-- Is this effect the forwarding of a receive-message event? -/
def Effect.isReceiveForward : Effect → Bool
  | .send _ (.receive_msg _ _ _ _) _ => true
  | _ => false

/-- Is this effect a reply-style send (error, response, or ack)? -/
def Effect.isReplySend : Effect → Bool
  | .send _ (.error _) _ => true
  | .send _ (.response _ _ _) _ => true
  | .send _ (.msg_ack _ _) _ => true
  | _ => false

/-- Does this effect write to socket `sid`? -/
def Effect.sendsTo (sid : Nat) : Effect → Bool
  | .send t _ _ => t == sid
  | _ => false

/-! ### The client registry

`self.clients` is a Python dict from username to session; it is modelled as
an association list in insertion order with unique keys, which matches dict
semantics: lookup by key, assignment replaces in place or appends, deletion
removes, and `items()` iterates in insertion order. -/

def Registry := List (String × Nat)

def dictMem (k : String) (d : List (String × Nat)) : Bool :=
  d.any (fun p => p.1 == k)

def dictGet (k : String) (d : List (String × Nat)) : Option Nat :=
  (d.find? (fun p => p.1 == k)).map Prod.snd

def dictInsert (k : String) (v : Nat) (d : List (String × Nat)) : List (String × Nat) :=
  if dictMem k d then d.map (fun p => if p.1 == k then (k, v) else p)
  else d ++ [(k, v)]

def dictRemove (k : String) (d : List (String × Nat)) : List (String × Nat) :=
  d.filter (fun p => !(p.1 == k))

/-- The persistent store (`class Database`), §6's external collaborator,
as an oracle of pure functions mirroring the methods `server.py` calls.
`authenticate_user` returns the `(success, message, user_id)` triple. -/
structure DB where
  authenticate_user : String → String → Bool × String × Option Nat
  register_user : String → String → Bool × String
  add_contact : Nat → String → Bool × String
  remove_contact : Nat → String → Bool × String
  get_contacts : Nat → List String
  search_users : String → Nat → List String
  set_avatar : Nat → List Nat → Bool
  get_avatar : String → Option (List Nat)

/-- `IMServer._broadcast_presence`: skip when the session is not
authenticated; otherwise send `build_presence(session.username, status)` to
every registry entry whose username differs from the sender's, in
registry-iteration order, ignoring each send's result. -/
def broadcast_presence (clients : List (String × Nat)) (session : ClientSession)
    (status : PresenceStatus) (sendOk : Nat → Bool) : List Effect :=
  if session.authenticated then
    match session.username with
    | some u =>
      (clients.filter (fun p => !(p.1 == u))).map
        (fun p => Effect.send p.2 (SMsg.presence u status) (sendOk p.2))
    | none => []
  else []

/-- `IMServer._handle_register`. -/
def handle_register (db : DB) (sendOk : Nat → Bool) (session : ClientSession)
    (username password : String) : List Effect :=
  let username := pyStrip username
  if username.length < 3 ∨ username.length > 20 then
    [.send session.sid
      (.response .REGISTER .FAIL "Username must be 3-20 characters") (sendOk session.sid)]
  else if password.length < 4 then
    [.send session.sid
      (.response .REGISTER .FAIL "Password must be at least 4 characters") (sendOk session.sid)]
  else if !pyIsalnum username then
    [.send session.sid
      (.response .REGISTER .FAIL "Username must be alphanumeric") (sendOk session.sid)]
  else
    let r := db.register_user username password
    [.send session.sid
      (.response .REGISTER (if r.1 then .SUCCESS else .FAIL) r.2) (sendOk session.sid)]

/-- `IMServer._handle_login`: membership test on `self.clients` under the
lock; early failure reply if the username is already present; otherwise
`db.authenticate_user`, and on success set the session's username/user_id/
authenticated attributes, insert into the registry, reply success, and
broadcast ONLINE presence. -/
def handle_login (db : DB) (sendOk : Nat → Bool) (clients : List (String × Nat))
    (session : ClientSession) (username password : String) :
    List (String × Nat) × ClientSession × List Effect :=
  let username := pyStrip username
  if dictMem username clients then
    (clients, session,
      [.registryLookup username,
       .send session.sid (.response .LOGIN .FAIL "User already logged in") (sendOk session.sid)])
  else
    let (success, message, user_id) := db.authenticate_user username password
    if success then
      let session' : ClientSession :=
        { session with username := some username, user_id := user_id, authenticated := true }
      let clients' := dictInsert username session.sid clients
      (clients', session',
        [.registryLookup username, .authQuery username password,
         .registryInsert username session.sid,
         .send session.sid (.response .LOGIN .SUCCESS message) (sendOk session.sid)] ++
          broadcast_presence clients' session' .ONLINE sendOk)
    else
      (clients, session,
        [.registryLookup username, .authQuery username password,
         .send session.sid (.response .LOGIN .FAIL message) (sendOk session.sid)])

/-- `IMServer._handle_logout`: a goodbye reply if authenticated, nothing
otherwise.  (Registry removal happens in `cleanup_session`, not here.) -/
def handle_logout (sendOk : Nat → Bool) (session : ClientSession) : List Effect :=
  if session.authenticated then
    [.send session.sid (.response .LOGOUT .SUCCESS "Goodbye!") (sendOk session.sid)]
  else []

/-- `IMServer._handle_send_msg`: authentication guard; empty (stripped)
recipient or empty content is acked INVALID_MESSAGE before any registry
access; otherwise look up the recipient and either forward
`build_receive_msg(session.username, content, msg_id, timestamp)` and ack
DELIVERED/DELIVERY_FAILED by the forward's result, or ack USER_OFFLINE. -/
def handle_send_msg (sendOk : Nat → Bool) (clients : List (String × Nat))
    (session : ClientSession) (to_user content msg_id : String) (now : String) :
    List Effect :=
  if !session.authenticated then
    [.send session.sid (.error "Not authenticated") (sendOk session.sid)]
  else
    let recipient := pyStrip to_user
    if recipient = "" ∨ content = "" then
      [.send session.sid (.msg_ack msg_id .INVALID_MESSAGE) (sendOk session.sid)]
    else
      Effect.registryLookup recipient ::
        match dictGet recipient clients with
        | some rsid =>
          let delivered := sendOk rsid
          [.send rsid
             (.receive_msg (session.username.getD "") content msg_id now) delivered,
           .send session.sid
             (.msg_ack msg_id (if delivered then .DELIVERED else .DELIVERY_FAILED))
             (sendOk session.sid)]
        | none =>
          [.send session.sid (.msg_ack msg_id .USER_OFFLINE) (sendOk session.sid)]

/-- `IMServer._handle_get_contacts`: presence of each stored contact is
computed live against the registry. -/
def handle_get_contacts (db : DB) (sendOk : Nat → Bool)
    (clients : List (String × Nat)) (session : ClientSession) : List Effect :=
  if !session.authenticated then
    [.send session.sid (.error "Not authenticated") (sendOk session.sid)]
  else
    let names := db.get_contacts (session.user_id.getD 0)
    let contacts := names.map
      (fun u => (u, if dictMem u clients then PresenceStatus.ONLINE else PresenceStatus.OFFLINE))
    [.send session.sid (.contact_list contacts) (sendOk session.sid)]

/-- `IMServer._handle_add_contact`. -/
def handle_add_contact (db : DB) (sendOk : Nat → Bool)
    (clients : List (String × Nat)) (session : ClientSession) (contact : String) :
    List Effect :=
  if !session.authenticated then
    [.send session.sid (.error "Not authenticated") (sendOk session.sid)]
  else
    let contact := pyStrip contact
    if contact = "" then
      [.send session.sid (.response .ADD_CONTACT .FAIL "Invalid username") (sendOk session.sid)]
    else
      let r := db.add_contact (session.user_id.getD 0) contact
      [.send session.sid
         (.response .ADD_CONTACT (if r.1 then .SUCCESS else .FAIL) r.2) (sendOk session.sid)] ++
        (if r.1 then handle_get_contacts db sendOk clients session else [])

/-- `IMServer._handle_remove_contact`. -/
def handle_remove_contact (db : DB) (sendOk : Nat → Bool)
    (clients : List (String × Nat)) (session : ClientSession) (contact : String) :
    List Effect :=
  if !session.authenticated then
    [.send session.sid (.error "Not authenticated") (sendOk session.sid)]
  else
    let r := db.remove_contact (session.user_id.getD 0) (pyStrip contact)
    [.send session.sid
       (.response .REMOVE_CONTACT (if r.1 then .SUCCESS else .FAIL) r.2) (sendOk session.sid)] ++
      (if r.1 then handle_get_contacts db sendOk clients session else [])

/-- `IMServer._handle_search_user`. -/
def handle_search_user (db : DB) (sendOk : Nat → Bool) (session : ClientSession)
    (query : String) : List Effect :=
  if !session.authenticated then
    [.send session.sid (.error "Not authenticated") (sendOk session.sid)]
  else
    let query := pyStrip query
    if query.length < 1 then
      [.send session.sid (.user_search_result []) (sendOk session.sid)]
    else
      [.send session.sid
         (.user_search_result (db.search_users query (session.user_id.getD 0)))
         (sendOk session.sid)]

/-- `IMServer._handle_earthquake`: clamp intensity to 1–10; if the recipient
is registered, forward `build_earthquake_recv` to it (result only logged,
never reported to the sender); if not, send the sender an error. -/
def handle_earthquake (sendOk : Nat → Bool) (clients : List (String × Nat))
    (session : ClientSession) (to_user : String) (intensity : Nat) : List Effect :=
  if !session.authenticated then
    [.send session.sid (.error "Not authenticated") (sendOk session.sid)]
  else
    let recipient := pyStrip to_user
    let intensity := max 1 (min 10 intensity)
    Effect.registryLookup recipient ::
      match dictGet recipient clients with
      | some rsid =>
        [.send rsid (.earthquake_recv (session.username.getD "") intensity) (sendOk rsid)]
      | none =>
        [.send session.sid (.error "User is offline") (sendOk session.sid)]

/-- `IMServer._handle_avatar_set`. -/
def handle_avatar_set (db : DB) (sendOk : Nat → Bool) (session : ClientSession)
    (data : List Nat) : List Effect :=
  if !session.authenticated then
    [.send session.sid (.error "Not authenticated") (sendOk session.sid)]
  else if data.length > MAX_AVATAR_SIZE then
    [.send session.sid
       (.response .AVATAR_SET .FAIL "Avatar too large (max 512KB)") (sendOk session.sid)]
  else if db.set_avatar (session.user_id.getD 0) data then
    [.send session.sid (.response .AVATAR_SET .SUCCESS "Avatar updated") (sendOk session.sid)]
  else
    [.send session.sid
       (.response .AVATAR_SET .FAIL "Failed to update avatar") (sendOk session.sid)]

/-- `IMServer._handle_avatar_get`. -/
def handle_avatar_get (db : DB) (sendOk : Nat → Bool) (session : ClientSession)
    (username : String) : List Effect :=
  if !session.authenticated then
    [.send session.sid (.error "Not authenticated") (sendOk session.sid)]
  else
    let username := pyStrip username
    [.send session.sid
       (.avatar_data username ((db.get_avatar username).getD [])) (sendOk session.sid)]

/-- The decoded messages `recv_message` can hand to the dispatcher, one
constructor per `Message` subclass, string fields decoded to `String`. -/
inductive InMsg
  | register (username password : String)
  | login (username password : String)
  | logout
  | send_msg (to_user content msg_id : String)
  | receive_msg (from_user content msg_id timestamp : String)
  | msg_ack (msg_id : String) (status : AckStatus)
  | add_contact (contact : String)
  | remove_contact (contact : String)
  | contact_list_req
  | contact_list (contacts : List (String × PresenceStatus))
  | user_search (query : String)
  | user_search_res (users : List String)
  | presence (username : String) (status : PresenceStatus)
  | response (action : ActionCode) (code : ResponseCode) (message : String)
  | error (message : String)
  | earthquake_send (to_user : String) (intensity : Nat)
  | earthquake_recv (from_user : String) (intensity : Nat)
  | avatar_set (data : List Nat)
  | avatar_get (username : String)
  | avatar_data (username : String) (data : List Nat)
deriving DecidableEq, Repr

/-- One iteration body of `IMServer._handle_client`'s `while` loop: the
`isinstance` dispatch.  Returns the new registry, new session, the effect
trace, and whether the loop continues (`False` exactly for the `logout`
branch, whose handler call is followed by `break`).  Message types with no
dispatcher branch (server-to-client shapes) reach the final `else` and get
an "Unknown command" error reply. -/
def dispatch (db : DB) (sendOk : Nat → Bool) (now : String)
    (clients : List (String × Nat)) (session : ClientSession) (m : InMsg) :
    List (String × Nat) × ClientSession × List Effect × Bool :=
  match m with
  | .register u p => (clients, session, handle_register db sendOk session u p, true)
  | .login u p =>
    match handle_login db sendOk clients session u p with
    | (c', s', effs) => (c', s', effs, true)
  | .logout => (clients, session, handle_logout sendOk session, false)
  | .send_msg t c i => (clients, session, handle_send_msg sendOk clients session t c i now, true)
  | .add_contact c => (clients, session, handle_add_contact db sendOk clients session c, true)
  | .remove_contact c => (clients, session, handle_remove_contact db sendOk clients session c, true)
  | .contact_list_req => (clients, session, handle_get_contacts db sendOk clients session, true)
  | .user_search q => (clients, session, handle_search_user db sendOk session q, true)
  | .earthquake_send t i => (clients, session, handle_earthquake sendOk clients session t i, true)
  | .avatar_set d => (clients, session, handle_avatar_set db sendOk session d, true)
  | .avatar_get u => (clients, session, handle_avatar_get db sendOk session u, true)
  | _ => (clients, session,
      [.send session.sid (.error "Unknown command") (sendOk session.sid)], true)

/-- What one blocking `recv_message` call in the read loop produced:
a decoded message, `closed` for a `None` result (peer closed, socket error,
oversized or undecodable frame — the loop `break`s), or `raised` for an
exception escaping a handler (caught by the `except` clause, ending the
loop).  An exhausted input list also ends the loop. -/
inductive Inbound
  | msg (m : InMsg)
  | closed
  | raised
deriving DecidableEq, Repr

/-- `IMServer._cleanup_session`: if the session is authenticated and its
username is truthy (non-empty), delete the registry entry for that username
if present and broadcast OFFLINE presence over the updated registry; then
close the socket (no modelled effect).  Runs in the `finally` clause. -/
def cleanup_session (sendOk : Nat → Bool) (clients : List (String × Nat))
    (session : ClientSession) : List (String × Nat) × ClientSession × List Effect :=
  match session.authenticated, session.username with
  | true, some u =>
    if u = "" then (clients, session, [])
    else
      let clients' := if dictMem u clients then dictRemove u clients else clients
      let removeEffs := if dictMem u clients then [Effect.registryRemove u] else []
      (clients', session, removeEffs ++ broadcast_presence clients' session .OFFLINE sendOk)
  | _, _ => (clients, session, [])

/-- The `try` body of `IMServer._handle_client`: repeatedly take the next
inbound result and dispatch, stopping on a `None` read, an escaped
exception, or a `logout` (`break`). -/
def client_loop (db : DB) (sendOk : Nat → Bool) (now : String) :
    List Inbound → List (String × Nat) → ClientSession →
      List (String × Nat) × ClientSession × List Effect
  | [], clients, session => (clients, session, [])
  | .closed :: _, clients, session => (clients, session, [])
  | .raised :: _, clients, session => (clients, session, [])
  | .msg m :: rest, clients, session =>
    match dispatch db sendOk now clients session m with
    | (c', s', effs, cont) =>
      if cont then
        match client_loop db sendOk now rest c' s' with
        | (c'', s'', effs') => (c'', s'', effs ++ effs')
      else (c', s', effs)

/-- `IMServer._handle_client`: the read loop followed unconditionally (the
`finally` clause) by `_cleanup_session`, on every exit path. -/
def handle_client (db : DB) (sendOk : Nat → Bool) (now : String)
    (inputs : List Inbound) (clients : List (String × Nat))
    (session : ClientSession) :
    List (String × Nat) × ClientSession × List Effect :=
  match client_loop db sendOk now inputs clients session with
  | (c₁, s₁, effs₁) =>
    match cleanup_session sendOk c₁ s₁ with
    | (c₂, s₂, effs₂) => (c₂, s₂, effs₁ ++ effs₂)

/-! ### Concrete fixtures used by witnesses and counterexamples -/

/-- A store oracle where every username/password pair authenticates (user
id 7) and every operation succeeds. -/
def db0 : DB where
  authenticate_user := fun _ _ => (true, "Login successful", some 7)
  register_user := fun _ _ => (true, "Registration successful")
  add_contact := fun _ _ => (true, "Contact added")
  remove_contact := fun _ _ => (true, "Contact removed")
  get_contacts := fun _ => []
  search_users := fun _ _ => []
  set_avatar := fun _ _ => true
  get_avatar := fun _ => none

/-- Every socket write succeeds. -/
def sendOk0 : Nat → Bool := fun _ => true

/-- Every socket write fails. -/
def sendFail0 : Nat → Bool := fun _ => false

/-- A fresh unauthenticated session on socket 1. -/
def sess0 : ClientSession := ⟨1, none, none, false⟩

/-- A session on socket 1 already authenticated as alice. -/
def sessAlice : ClientSession := ⟨1, some "alice", some 7, true⟩

/-- Is this effect a successful-login reply
(`build_response(LOGIN, SUCCESS, ...)`)? -/
def Effect.isLoginSuccessReply : Effect → Bool
  | .send _ (.response .LOGIN .SUCCESS _) _ => true
  | _ => false

/-- The dispatcher branches that call an authenticated-only handler
(everything except `register`, `login`, `logout`, and the message types
that fall to the `else` arm). -/
def isAuthOnlyCmd : InMsg → Bool
  | .send_msg _ _ _ => true
  | .add_contact _ => true
  | .remove_contact _ => true
  | .contact_list_req => true
  | .user_search _ => true
  | .earthquake_send _ _ => true
  | .avatar_set _ => true
  | .avatar_get _ => true
  | _ => false

/-- The decoded message types with no dispatcher branch (server-to-client
shapes), which fall through to the dispatcher's `else` arm. -/
def isUnknownCmd : InMsg → Bool
  | .receive_msg _ _ _ _ => true
  | .msg_ack _ _ => true
  | .contact_list _ => true
  | .user_search_res _ => true
  | .presence _ _ => true
  | .response _ _ _ => true
  | .error _ => true
  | .earthquake_recv _ _ => true
  | .avatar_data _ _ => true
  | _ => false

/-! ## Codec lemmas: each reader inverts the corresponding writer -/

theorem take_append_self (s t : List Nat) : (s ++ t).take s.length = s := by
  induction s with
  | nil => rfl
  | cons a s ih => simp [List.take, ih]

theorem drop_append_self (s t : List Nat) : (s ++ t).drop s.length = t := by
  induction s with
  | nil => rfl
  | cons a s ih => simp [List.drop, ih]

theorem read_uint8_write (n : Nat) (rest : List Nat) (h : n ≤ 255) :
    read_uint8 (write_uint8 n ++ rest) = some (n, rest) := by
  simp [read_uint8, write_uint8, Nat.mod_eq_of_lt (by omega : n < 256)]

theorem read_uint16_write (n : Nat) (rest : List Nat) (h : n ≤ 65535) :
    read_uint16 (write_uint16 n ++ rest) = some (n, rest) := by
  simp only [write_uint16, List.cons_append, List.nil_append, read_uint16]
  have hn : 256 * (n / 256 % 256) + n % 256 = n := by omega
  rw [hn]

theorem read_uint32_write (n : Nat) (rest : List Nat) (h : n ≤ 4294967295) :
    read_uint32 (write_uint32 n ++ rest) = some (n, rest) := by
  simp only [write_uint32, List.cons_append, List.nil_append, read_uint32]
  have hn : ((n / 16777216 % 256 * 256 + n / 65536 % 256) * 256 + n / 256 % 256) * 256 +
      n % 256 = n := by omega
  rw [hn]

theorem read_string_write (s rest : List Nat) (hlen : s.length ≤ 65535)
    (hval : utf8Valid s = true) :
    read_string (write_string s ++ rest) = some (s, rest) := by
  rw [read_string, write_string, List.append_assoc, read_uint16_write _ _ hlen]
  simp [take_append_self, drop_append_self, hval]

theorem read_string_write_nil (s : List Nat) (hlen : s.length ≤ 65535)
    (hval : utf8Valid s = true) :
    read_string (write_string s) = some (s, []) := by
  have := read_string_write s [] hlen hval
  simpa using this

theorem read_uint8_write_nil (n : Nat) (h : n ≤ 255) :
    read_uint8 (write_uint8 n) = some (n, []) := by
  have := read_uint8_write n [] h
  simpa using this

theorem read_bytes_write (b rest : List Nat) (hlen : b.length ≤ 4294967295) :
    read_bytes (write_bytes b ++ rest) = some (b, rest) := by
  rw [read_bytes, write_bytes, List.append_assoc, read_uint32_write _ _ hlen]
  simp [take_append_self, drop_append_self]

theorem read_bytes_write_nil (b : List Nat) (hlen : b.length ≤ 4294967295) :
    read_bytes (write_bytes b) = some (b, []) := by
  have := read_bytes_write b [] hlen
  simpa using this

theorem command_toNat_le (c : Command) : c.toNat ≤ 65535 := by
  cases c <;> simp [Command.toNat]

theorem command_ofCode_toNat (c : Command) : Command.ofCode c.toNat = some c := by
  cases c <;> rfl

theorem ackStatus_toNat_le (s : AckStatus) : s.toNat ≤ 255 := by
  cases s <;> simp [AckStatus.toNat]

theorem ackStatus_ofCode_toNat (s : AckStatus) : AckStatus.ofCode s.toNat = some s := by
  cases s <;> rfl

theorem presenceStatus_toNat_le (s : PresenceStatus) : s.toNat ≤ 255 := by
  cases s <;> simp [PresenceStatus.toNat]

theorem presenceStatus_ofCode_toNat (s : PresenceStatus) :
    PresenceStatus.ofCode s.toNat = some s := by
  cases s <;> rfl

theorem actionCode_toNat_le (a : ActionCode) : a.toNat ≤ 255 := by
  cases a <;> simp [ActionCode.toNat]

theorem actionCode_ofCode_toNat (a : ActionCode) : ActionCode.ofCode a.toNat = some a := by
  cases a <;> rfl

theorem responseCode_toNat_le (c : ResponseCode) : c.toNat ≤ 255 := by
  cases c <;> simp [ResponseCode.toNat]

theorem responseCode_ofCode_toNat (c : ResponseCode) :
    ResponseCode.ofCode c.toNat = some c := by
  cases c <;> rfl

/-- Decoding a frame assembled by `encodeFrame` passes every header check
and hands the exact payload to the selected command's parser. -/
theorem decode_encodeFrame (cmd : Command) (payload : List Nat)
    (h : payload.length ≤ 4294967295) :
    decode_message (encodeFrame cmd payload) =
      match parsePayload cmd payload with
      | Option.none => DecodeResult.err "payload decode failure"
      | Option.some m => DecodeResult.ok m := by
  have ht : 256 * (cmd.toNat / 256 % 256) + cmd.toNat % 256 = cmd.toNat := by
    have := command_toNat_le cmd
    omega
  have hL : ((payload.length / 16777216 % 256 * 256 + payload.length / 65536 % 256) * 256 +
      payload.length / 256 % 256) * 256 + payload.length % 256 = payload.length := by
    omega
  simp only [encodeFrame, PROTOCOL_MAGIC, PROTOCOL_VERSION, write_uint16, write_uint32,
    List.cons_append, List.nil_append, decode_message]
  rw [ht, hL, command_ofCode_toNat, List.take_length]
  simp

/-- Parsing the contact-list entries written by the `ContactListMessage`
encoding loop returns the same entries. -/
theorem parseContacts_encode (cs : List ContactInfo) (rest : List Nat)
    (h : ∀ c ∈ cs, utf8Valid c.username = true ∧ c.username.length ≤ 65535) :
    parseContacts cs.length (encodeContacts cs ++ rest) = some (cs, rest) := by
  induction cs with
  | nil => simp [parseContacts, encodeContacts]
  | cons c cs ih =>
    obtain ⟨hv, hl⟩ := h c (List.mem_cons_self c cs)
    have hrest : ∀ c' ∈ cs, utf8Valid c'.username = true ∧ c'.username.length ≤ 65535 :=
      fun c' hc' => h c' (List.mem_cons_of_mem c hc')
    simp only [encodeContacts, List.append_assoc, List.length_cons, parseContacts]
    rw [read_string_write _ _ hl hv]
    simp only [Option.bind_eq_bind, Option.some_bind]
    rw [read_uint8_write _ _ (presenceStatus_toNat_le c.status)]
    simp only [Option.some_bind, presenceStatus_ofCode_toNat]
    rw [ih hrest]
    rfl

/-- Parsing the username list written by the `UserSearchResultMessage`
encoding loop returns the same list. -/
theorem parseUsers_encode (us : List (List Nat)) (rest : List Nat)
    (h : ∀ u ∈ us, utf8Valid u = true ∧ u.length ≤ 65535) :
    parseUsers us.length (encodeUsers us ++ rest) = some (us, rest) := by
  induction us with
  | nil => simp [parseUsers, encodeUsers]
  | cons u us ih =>
    obtain ⟨hv, hl⟩ := h u (List.mem_cons_self u us)
    have hrest : ∀ u' ∈ us, utf8Valid u' = true ∧ u'.length ≤ 65535 :=
      fun u' hu' => h u' (List.mem_cons_of_mem u hu')
    simp only [encodeUsers, List.append_assoc, List.length_cons, parseUsers]
    rw [read_string_write _ _ hl hv]
    simp only [Option.bind_eq_bind, Option.some_bind]
    rw [ih hrest]
    rfl

theorem parseContacts_encode_nil (cs : List ContactInfo)
    (h : ∀ c ∈ cs, utf8Valid c.username = true ∧ c.username.length ≤ 65535) :
    parseContacts cs.length (encodeContacts cs) = some (cs, []) := by
  have := parseContacts_encode cs [] h
  simpa using this

theorem parseUsers_encode_nil (us : List (List Nat))
    (h : ∀ u ∈ us, utf8Valid u = true ∧ u.length ≤ 65535) :
    parseUsers us.length (encodeUsers us) = some (us, []) := by
  have := parseUsers_encode us [] h
  simpa using this

/-- A valid message's payload fits the 4-byte frame length field. -/
theorem encodePayload_length_le (m : Message) (h : validMessage m = true) :
    (encodePayload m).length ≤ 4294967295 := by
  cases m <;>
    simp_all [validMessage, validStr, validBlob, encodePayload, write_string, write_bytes,
      write_uint8, write_uint16, write_uint32, MAX_MESSAGE_SIZE] <;>
    omega

/-- The dispatched payload parser inverts the payload encoder on every valid
message. -/
theorem parsePayload_encodePayload (m : Message) (h : validMessage m = true) :
    parsePayload m.command (encodePayload m) = some m := by
  cases m with
  | RegisterMessage u p =>
    simp only [validMessage, validStr, Bool.and_eq_true, decide_eq_true_eq] at h
    obtain ⟨⟨hu1, hu2⟩, hp1, hp2⟩ := h
    simp [Message.command, encodePayload, parsePayload, read_string_write _ _ hu2 hu1,
      read_string_write_nil _ hp2 hp1]
  | LoginMessage u p =>
    simp only [validMessage, validStr, Bool.and_eq_true, decide_eq_true_eq] at h
    obtain ⟨⟨hu1, hu2⟩, hp1, hp2⟩ := h
    simp [Message.command, encodePayload, parsePayload, read_string_write _ _ hu2 hu1,
      read_string_write_nil _ hp2 hp1]
  | LogoutMessage => rfl
  | SendMsgMessage t c i =>
    simp only [validMessage, validStr, Bool.and_eq_true, decide_eq_true_eq] at h
    obtain ⟨⟨⟨ht1, ht2⟩, hc1, hc2⟩, hi1, hi2⟩ := h
    simp [Message.command, encodePayload, parsePayload, List.append_assoc,
      read_string_write _ _ ht2 ht1, read_string_write _ _ hc2 hc1,
      read_string_write_nil _ hi2 hi1]
  | ReceiveMsgMessage f c i ts =>
    simp only [validMessage, validStr, Bool.and_eq_true, decide_eq_true_eq] at h
    obtain ⟨⟨⟨⟨hf1, hf2⟩, hc1, hc2⟩, hi1, hi2⟩, ht1, ht2⟩ := h
    simp [Message.command, encodePayload, parsePayload, List.append_assoc,
      read_string_write _ _ hf2 hf1, read_string_write _ _ hc2 hc1,
      read_string_write _ _ hi2 hi1, read_string_write_nil _ ht2 ht1]
  | MsgAckMessage i st =>
    simp only [validMessage, validStr, Bool.and_eq_true, decide_eq_true_eq] at h
    obtain ⟨hi1, hi2⟩ := h
    simp [Message.command, encodePayload, parsePayload, read_string_write _ _ hi2 hi1,
      read_uint8_write_nil _ (ackStatus_toNat_le st), ackStatus_ofCode_toNat]
  | AddContactMessage c =>
    simp only [validMessage, validStr, Bool.and_eq_true, decide_eq_true_eq] at h
    obtain ⟨h1, h2⟩ := h
    simp [Message.command, encodePayload, parsePayload, read_string_write_nil _ h2 h1]
  | RemoveContactMessage c =>
    simp only [validMessage, validStr, Bool.and_eq_true, decide_eq_true_eq] at h
    obtain ⟨h1, h2⟩ := h
    simp [Message.command, encodePayload, parsePayload, read_string_write_nil _ h2 h1]
  | ContactListReqMessage => rfl
  | ContactListMessage cs =>
    simp only [validMessage, Bool.and_eq_true, decide_eq_true_eq, List.all_eq_true,
      validStr] at h
    obtain ⟨⟨hn, hall⟩, _⟩ := h
    have hcs : ∀ c ∈ cs, utf8Valid c.username = true ∧ c.username.length ≤ 65535 := by
      intro c hc
      have := hall c hc
      simp only [Bool.and_eq_true, decide_eq_true_eq] at this
      exact this
    simp [Message.command, encodePayload, parsePayload, read_uint16_write _ _ hn,
      parseContacts_encode_nil cs hcs]
  | UserSearchMessage q =>
    simp only [validMessage, validStr, Bool.and_eq_true, decide_eq_true_eq] at h
    obtain ⟨h1, h2⟩ := h
    simp [Message.command, encodePayload, parsePayload, read_string_write_nil _ h2 h1]
  | UserSearchResultMessage us =>
    simp only [validMessage, Bool.and_eq_true, decide_eq_true_eq, List.all_eq_true,
      validStr] at h
    obtain ⟨⟨hn, hall⟩, _⟩ := h
    have hus : ∀ u ∈ us, utf8Valid u = true ∧ u.length ≤ 65535 := by
      intro u hu
      have := hall u hu
      simp only [Bool.and_eq_true, decide_eq_true_eq] at this
      exact this
    simp [Message.command, encodePayload, parsePayload, read_uint16_write _ _ hn,
      parseUsers_encode_nil us hus]
  | PresenceMessage u st =>
    simp only [validMessage, validStr, Bool.and_eq_true, decide_eq_true_eq] at h
    obtain ⟨h1, h2⟩ := h
    simp [Message.command, encodePayload, parsePayload, read_string_write _ _ h2 h1,
      read_uint8_write_nil _ (presenceStatus_toNat_le st), presenceStatus_ofCode_toNat]
  | ResponseMessage a c msg =>
    simp only [validMessage, validStr, Bool.and_eq_true, decide_eq_true_eq] at h
    obtain ⟨h1, h2⟩ := h
    simp [Message.command, encodePayload, parsePayload, List.append_assoc,
      read_uint8_write _ _ (actionCode_toNat_le a), actionCode_ofCode_toNat,
      read_uint8_write _ _ (responseCode_toNat_le c), responseCode_ofCode_toNat,
      read_string_write_nil _ h2 h1]
  | ErrorMessage msg =>
    simp only [validMessage, validStr, Bool.and_eq_true, decide_eq_true_eq] at h
    obtain ⟨h1, h2⟩ := h
    simp [Message.command, encodePayload, parsePayload, read_string_write_nil _ h2 h1]
  | EarthquakeSendMessage t i =>
    simp only [validMessage, validStr, Bool.and_eq_true, decide_eq_true_eq] at h
    obtain ⟨⟨h1, h2⟩, h3⟩ := h
    simp [Message.command, encodePayload, parsePayload, read_string_write _ _ h2 h1,
      read_uint8_write_nil _ h3]
  | EarthquakeRecvMessage f i =>
    simp only [validMessage, validStr, Bool.and_eq_true, decide_eq_true_eq] at h
    obtain ⟨⟨h1, h2⟩, h3⟩ := h
    simp [Message.command, encodePayload, parsePayload, read_string_write _ _ h2 h1,
      read_uint8_write_nil _ h3]
  | AvatarSetMessage d =>
    simp only [validMessage, validBlob, Bool.and_eq_true, decide_eq_true_eq,
      MAX_MESSAGE_SIZE] at h
    obtain ⟨h1, _⟩ := h
    simp [Message.command, encodePayload, parsePayload,
      read_bytes_write_nil _ (by omega : d.length ≤ 4294967295)]
  | AvatarGetMessage u =>
    simp only [validMessage, validStr, Bool.and_eq_true, decide_eq_true_eq] at h
    obtain ⟨h1, h2⟩ := h
    simp [Message.command, encodePayload, parsePayload, read_string_write_nil _ h2 h1]
  | AvatarDataMessage u d =>
    simp only [validMessage, validStr, validBlob, Bool.and_eq_true, decide_eq_true_eq,
      MAX_MESSAGE_SIZE] at h
    obtain ⟨⟨h1, h2⟩, h3, _⟩ := h
    simp [Message.command, encodePayload, parsePayload, read_string_write _ _ h2 h1,
      read_bytes_write_nil _ (by omega : d.length ≤ 4294967295)]

/-- C1: for every defined `Message` variant with valid field values (UTF-8
strings of at most 65535 encoded bytes, blobs of real bytes within the
payload limit, enum fields in range, uint8 fields in 0–255, list counts
fitting the 2-byte prefix and the assembled payload fitting the 4-byte
length field), decoding the bytes produced by encoding the message yields
the same message — including zero-length strings/blobs and maximum-length
strings, which satisfy `validMessage`. -/
theorem C1_decode_encode (m : Message) (h : validMessage m = true) :
    decode_message (encode_message m) = DecodeResult.ok m := by
  rw [encode_message, decode_encodeFrame m.command (encodePayload m)
    (encodePayload_length_le m h), parsePayload_encodePayload m h]

/-- C1 witness: the round trip evaluated on a concrete send-message with a
zero-length `msg_id`. -/
theorem C1_decode_encode_witness :
    validMessage (Message.SendMsgMessage [98, 111, 98] [104, 105] []) = true ∧
      decode_message (encode_message (Message.SendMsgMessage [98, 111, 98] [104, 105] [])) =
        DecodeResult.ok (Message.SendMsgMessage [98, 111, 98] [104, 105] []) :=
  ⟨by decide, C1_decode_encode _ (by decide)⟩

/-- C2 counterexample: a well-framed `QPROTO_ERROR` frame whose payload is
`[0x00, 0x05, 0x41]` — the string length field declares 5 bytes but only one
byte (`0x41 = 'A'`) is available.  The claim requires decoding to fail;
instead `BinaryReader.read_string` slices past the end, Python slicing
silently truncates, and decoding succeeds with the wrong (truncated) string
`"A"`. -/
theorem C2_counterexample :
    decode_message [81, 80, 1, 5, 1, 0, 0, 0, 3, 0, 5, 65] =
      DecodeResult.ok (Message.ErrorMessage [65]) := by
  decide

/-- C2 (amended): decoding fails for an input shorter than the 9-byte
header (the `None` return), for wrong magic, for a version byte other than
0x01, and for an undefined command code; but a string length field that
runs past the available payload does NOT by itself cause a failure — the
reader silently truncates to the available bytes and decoding succeeds
whenever those bytes are valid UTF-8 (shown here for an arbitrary
overrunning ERROR frame). -/
theorem C2_header_rejection :
    (∀ data : List Nat, data.length < 9 → decode_message data = DecodeResult.retNone) ∧
    (∀ m0 m1 v c0 c1 l0 l1 l2 l3 : Nat, ∀ rest : List Nat, ¬(m0 = 81 ∧ m1 = 80) →
      decode_message (m0 :: m1 :: v :: c0 :: c1 :: l0 :: l1 :: l2 :: l3 :: rest) =
        DecodeResult.err "Invalid magic bytes") ∧
    (∀ v c0 c1 l0 l1 l2 l3 : Nat, ∀ rest : List Nat, v ≠ 1 →
      decode_message (81 :: 80 :: v :: c0 :: c1 :: l0 :: l1 :: l2 :: l3 :: rest) =
        DecodeResult.err "Unsupported protocol version") ∧
    (∀ c0 c1 l0 l1 l2 l3 : Nat, ∀ rest : List Nat, Command.ofCode (256 * c0 + c1) = none →
      decode_message (81 :: 80 :: 1 :: c0 :: c1 :: l0 :: l1 :: l2 :: l3 :: rest) =
        DecodeResult.err "Unknown command") ∧
    (∀ n : Nat, ∀ s : List Nat, n ≤ 65535 → s.length < n → utf8Valid s = true →
      decode_message (encodeFrame .QPROTO_ERROR (write_uint16 n ++ s)) =
        DecodeResult.ok (Message.ErrorMessage s)) := by
  refine ⟨?_, ?_, ?_, ?_, ?_⟩
  · intro data hlen
    rcases data with _ | ⟨a, _ | ⟨b, _ | ⟨c, _ | ⟨d, _ | ⟨e, _ | ⟨f, _ | ⟨g, _ | ⟨h,
      _ | ⟨i, t⟩⟩⟩⟩⟩⟩⟩⟩⟩ <;>
      first
        | rfl
        | (simp only [List.length_cons] at hlen; omega)
  · intro m0 m1 v c0 c1 l0 l1 l2 l3 rest hm
    simp only [decode_message]
    rw [if_neg hm]
  · intro v c0 c1 l0 l1 l2 l3 rest hv
    simp [decode_message, PROTOCOL_VERSION, hv]
  · intro c0 c1 l0 l1 l2 l3 rest hc
    simp [decode_message, PROTOCOL_VERSION, hc]
  · intro n s hn hs hv
    have hp : (write_uint16 n ++ s).length ≤ 4294967295 := by
      simp only [write_uint16, List.length_append, List.length_cons, List.length_nil]
      omega
    rw [decode_encodeFrame _ _ hp]
    simp only [parsePayload, read_string]
    rw [read_uint16_write _ _ hn]
    have ht : s.take n = s := List.take_of_length_le (by omega)
    have hd : s.drop n = [] := List.drop_eq_nil_of_le (by omega)
    simp [ht, hd, hv]

/-- C2 witness: each header-rejection conjunct and the truncation conjunct
evaluated at a concrete input. -/
theorem C2_header_rejection_witness :
    decode_message [81, 80] = DecodeResult.retNone ∧
    decode_message [0, 0, 1, 0, 1, 0, 0, 0, 0] = DecodeResult.err "Invalid magic bytes" ∧
    decode_message [81, 80, 2, 0, 1, 0, 0, 0, 0] =
      DecodeResult.err "Unsupported protocol version" ∧
    decode_message [81, 80, 1, 255, 255, 0, 0, 0, 0] = DecodeResult.err "Unknown command" ∧
    decode_message (encodeFrame .QPROTO_ERROR (write_uint16 5 ++ [65])) =
      DecodeResult.ok (Message.ErrorMessage [65]) :=
  ⟨C2_header_rejection.1 [81, 80] (by decide),
   C2_header_rejection.2.1 0 0 1 0 1 0 0 0 0 [] (by decide),
   C2_header_rejection.2.2.1 2 0 1 0 0 0 0 [] (by decide),
   C2_header_rejection.2.2.2.1 255 255 0 0 0 0 [] (by decide),
   C2_header_rejection.2.2.2.2 5 [65] (by decide) (by decide) (by decide)⟩

/-! ## Server theorems -/

/-- C3: for a send-message request from an authenticated session: an empty
(stripped) recipient or empty content is acked INVALID_MESSAGE with no
registry lookup; an online recipient gets exactly one receive-message event
carrying sender, content, the same `msg_id` and the server timestamp, and
the sender is acked DELIVERED or DELIVERY_FAILED by the forward write's
result; an absent recipient yields a USER_OFFLINE ack and no
receive-message event anywhere. -/
theorem C3_send_msg (sendOk : Nat → Bool) (clients : List (String × Nat))
    (session : ClientSession) (to_user content msg_id now sender : String)
    (hauth : session.authenticated = true) (husr : session.username = some sender) :
    (pyStrip to_user = "" ∨ content = "" →
      handle_send_msg sendOk clients session to_user content msg_id now =
        [Effect.send session.sid (SMsg.msg_ack msg_id AckStatus.INVALID_MESSAGE)
          (sendOk session.sid)] ∧
      (handle_send_msg sendOk clients session to_user content msg_id now).countP
        Effect.isRegistryLookup = 0) ∧
    (pyStrip to_user ≠ "" → content ≠ "" →
      (∀ rsid, dictGet (pyStrip to_user) clients = some rsid →
        handle_send_msg sendOk clients session to_user content msg_id now =
          [Effect.registryLookup (pyStrip to_user),
           Effect.send rsid (SMsg.receive_msg sender content msg_id now) (sendOk rsid),
           Effect.send session.sid
             (SMsg.msg_ack msg_id
               (if sendOk rsid then AckStatus.DELIVERED else AckStatus.DELIVERY_FAILED))
             (sendOk session.sid)] ∧
        (handle_send_msg sendOk clients session to_user content msg_id now).countP
          Effect.isReceiveForward = 1) ∧
      (dictGet (pyStrip to_user) clients = none →
        handle_send_msg sendOk clients session to_user content msg_id now =
          [Effect.registryLookup (pyStrip to_user),
           Effect.send session.sid (SMsg.msg_ack msg_id AckStatus.USER_OFFLINE)
             (sendOk session.sid)] ∧
        (handle_send_msg sendOk clients session to_user content msg_id now).countP
          Effect.isReceiveForward = 0)) := by
  have hbase : handle_send_msg sendOk clients session to_user content msg_id now =
      if pyStrip to_user = "" ∨ content = "" then
        [Effect.send session.sid (SMsg.msg_ack msg_id AckStatus.INVALID_MESSAGE)
          (sendOk session.sid)]
      else
        Effect.registryLookup (pyStrip to_user) ::
          match dictGet (pyStrip to_user) clients with
          | some rsid =>
            [Effect.send rsid (SMsg.receive_msg (session.username.getD "") content msg_id now)
               (sendOk rsid),
             Effect.send session.sid
               (SMsg.msg_ack msg_id
                 (if sendOk rsid then AckStatus.DELIVERED else AckStatus.DELIVERY_FAILED))
               (sendOk session.sid)]
          | none =>
            [Effect.send session.sid (SMsg.msg_ack msg_id AckStatus.USER_OFFLINE)
               (sendOk session.sid)] := by
    simp [handle_send_msg, hauth]
  refine ⟨?_, ?_⟩
  · intro hemp
    rw [hbase, if_pos hemp]
    exact ⟨rfl, by simp [List.countP_cons, Effect.isRegistryLookup]⟩
  · intro hne1 hne2
    have hif : ¬(pyStrip to_user = "" ∨ content = "") := not_or.mpr ⟨hne1, hne2⟩
    refine ⟨?_, ?_⟩
    · intro rsid hlook
      rw [hbase, if_neg hif, hlook, husr]
      refine ⟨rfl, ?_⟩
      simp [List.countP_cons, Effect.isReceiveForward, Effect.isRegistryLookup]
    · intro hlook
      rw [hbase, if_neg hif, hlook]
      exact ⟨rfl, by simp [List.countP_cons, Effect.isReceiveForward, Effect.isRegistryLookup]⟩

/-- C3 witness: alice sends to online bob (socket 2); the trace is the
forward plus a DELIVERED ack. -/
theorem C3_send_msg_witness :
    handle_send_msg sendOk0 [("bob", 2)] sessAlice "bob" "hi" "m1" "t" =
      [Effect.registryLookup (pyStrip "bob"),
       Effect.send 2 (SMsg.receive_msg "alice" "hi" "m1" "t") (sendOk0 2),
       Effect.send 1 (SMsg.msg_ack "m1"
         (if sendOk0 2 then AckStatus.DELIVERED else AckStatus.DELIVERY_FAILED)) (sendOk0 1)] := by
  have h := C3_send_msg sendOk0 [("bob", 2)] sessAlice "bob" "hi" "m1" "t" "alice"
    (by decide) (by decide)
  exact ((h.2 (by decide) (by decide)).1 2 (by decide)).1

/-- C5: a login whose (stripped) username is already in the registry gets a
LOGIN/FAIL reply, leaves the registry untouched (still exactly one entry
for that username), and leaves the session exactly as it was (in
particular unauthenticated sessions stay unauthenticated with the username
attribute unset). -/
theorem C5_login_collision (db : DB) (sendOk : Nat → Bool)
    (clients : List (String × Nat)) (session : ClientSession)
    (username password : String)
    (hmem : dictMem (pyStrip username) clients = true)
    (hcount : clients.countP (fun p => p.1 == pyStrip username) = 1) :
    handle_login db sendOk clients session username password =
      (clients, session,
        [Effect.registryLookup (pyStrip username),
         Effect.send session.sid
           (SMsg.response ActionCode.LOGIN ResponseCode.FAIL "User already logged in")
           (sendOk session.sid)]) ∧
    (handle_login db sendOk clients session username password).1.countP
      (fun p => p.1 == pyStrip username) = 1 ∧
    (handle_login db sendOk clients session username password).2.1 = session := by
  have he : handle_login db sendOk clients session username password =
      (clients, session,
        [Effect.registryLookup (pyStrip username),
         Effect.send session.sid
           (SMsg.response ActionCode.LOGIN ResponseCode.FAIL "User already logged in")
           (sendOk session.sid)]) := by
    simp only [handle_login]
    rw [if_pos hmem]
  exact ⟨he, by rw [he]; exact hcount, by rw [he]⟩

/-- C5 witness: a fresh session tries to log in as alice while alice is
registered on socket 2. -/
theorem C5_login_collision_witness :
    handle_login db0 sendOk0 [("alice", 2)] sess0 "alice" "pw" =
      ([("alice", 2)], sess0,
        [Effect.registryLookup (pyStrip "alice"),
         Effect.send 1
           (SMsg.response ActionCode.LOGIN ResponseCode.FAIL "User already logged in")
           (sendOk0 1)]) :=
  (C5_login_collision db0 sendOk0 [("alice", 2)] sess0 "alice" "pw"
    (by decide) (by decide)).1

/-- C8 counterexample: `_broadcast_presence` filters by username, not by
session, so in the aliased registry a re-login produces (two entries, both
pointing at the one session on socket 1) the broadcast for U = bob sends
bob's own presence event to bob's own socket via the `("alice", 1)` entry —
"U never receives its own event" fails.  The aliased state is reachable:
running the dispatcher on `login alice; login bob` from an empty registry
yields exactly that session, and its trace contains the self-directed
presence send. -/
theorem C8_counterexample :
    broadcast_presence [("alice", 1), ("bob", 1)]
        { sid := 1, username := some "bob", user_id := some 7, authenticated := true }
        PresenceStatus.ONLINE sendOk0 =
      [Effect.send 1 (SMsg.presence "bob" PresenceStatus.ONLINE) true] ∧
    (client_loop db0 sendOk0 "t"
        [Inbound.msg (InMsg.login "alice" "x"), Inbound.msg (InMsg.login "bob" "x")]
        [] sess0).2.1 =
      { sid := 1, username := some "bob", user_id := some 7, authenticated := true } ∧
    Effect.send 1 (SMsg.presence "bob" PresenceStatus.ONLINE) true ∈
      (handle_client db0 sendOk0 "t"
        [Inbound.msg (InMsg.login "alice" "x"), Inbound.msg (InMsg.login "bob" "x")]
        [] sess0).2.2 := by
  decide

/-- C8 (amended): `_broadcast_presence` for an authenticated session with
username `u` sends the presence event to exactly the registry entries whose
*username* differs from `u` — each such entry receives it (whatever the
send results to the other peers are, so one peer's failure never
suppresses another's send), every emitted effect is such a send, and no
entry registered under `u` itself is sent to.  The exclusion is by
username, not by session: an entry under another name can alias `u`'s own
session (re-login), and then `u`'s own socket does receive the event — see
the counterexample. -/
theorem C8_broadcast (clients : List (String × Nat)) (session : ClientSession)
    (status : PresenceStatus) (sendOk : Nat → Bool) (u : String)
    (hauth : session.authenticated = true) (husr : session.username = some u) :
    (∀ p ∈ clients, p.1 ≠ u →
      Effect.send p.2 (SMsg.presence u status) (sendOk p.2) ∈
        broadcast_presence clients session status sendOk) ∧
    (∀ e ∈ broadcast_presence clients session status sendOk,
      ∃ p, p ∈ clients ∧ p.1 ≠ u ∧
        e = Effect.send p.2 (SMsg.presence u status) (sendOk p.2)) ∧
    (broadcast_presence clients session status sendOk).length =
      (clients.filter (fun p => !(p.1 == u))).length := by
  have hb : broadcast_presence clients session status sendOk =
      (clients.filter (fun p => !(p.1 == u))).map
        (fun p => Effect.send p.2 (SMsg.presence u status) (sendOk p.2)) := by
    simp [broadcast_presence, hauth, husr]
  refine ⟨?_, ?_, ?_⟩
  · intro p hp hne
    rw [hb]
    exact List.mem_map_of_mem _ (List.mem_filter.mpr ⟨hp, by simp [hne]⟩)
  · intro e he
    rw [hb] at he
    obtain ⟨p, hp, rfl⟩ := List.mem_map.mp he
    have hpf := List.mem_filter.mp hp
    refine ⟨p, hpf.1, ?_, rfl⟩
    have := hpf.2
    simpa using this
  · rw [hb, List.length_map]

/-- C8 witness: alice's ONLINE transition while bob (socket 2) and carol
(socket 3) are registered reaches both of them. -/
theorem C8_broadcast_witness :
    Effect.send 2 (SMsg.presence "alice" PresenceStatus.ONLINE) (sendOk0 2) ∈
      broadcast_presence [("alice", 1), ("bob", 2), ("carol", 3)] sessAlice
        PresenceStatus.ONLINE sendOk0 ∧
    Effect.send 3 (SMsg.presence "alice" PresenceStatus.ONLINE) (sendOk0 3) ∈
      broadcast_presence [("alice", 1), ("bob", 2), ("carol", 3)] sessAlice
        PresenceStatus.ONLINE sendOk0 := by
  have h := C8_broadcast [("alice", 1), ("bob", 2), ("carol", 3)] sessAlice
    PresenceStatus.ONLINE sendOk0 "alice" (by decide) (by decide)
  exact ⟨h.1 ("bob", 2) (by decide) (by decide), h.1 ("carol", 3) (by decide) (by decide)⟩

/-- C10: for an earthquake signal from an authenticated session whose
recipient is registered, the entire trace is the single forward to the
recipient — no error, no acknowledgement, and (for a distinct recipient)
no write to the sender's socket at all, whether or not the forward write
succeeds; only an absent recipient produces an error reply to the
sender. -/
theorem C10_earthquake (sendOk : Nat → Bool) (clients : List (String × Nat))
    (session : ClientSession) (to_user : String) (intensity : Nat) (u : String)
    (hauth : session.authenticated = true) (husr : session.username = some u) :
    (∀ rsid, dictGet (pyStrip to_user) clients = some rsid →
      handle_earthquake sendOk clients session to_user intensity =
        [Effect.registryLookup (pyStrip to_user),
         Effect.send rsid (SMsg.earthquake_recv u (max 1 (min 10 intensity)))
           (sendOk rsid)] ∧
      (handle_earthquake sendOk clients session to_user intensity).countP
        Effect.isReplySend = 0 ∧
      (rsid ≠ session.sid →
        (handle_earthquake sendOk clients session to_user intensity).countP
          (Effect.sendsTo session.sid) = 0)) ∧
    (dictGet (pyStrip to_user) clients = none →
      handle_earthquake sendOk clients session to_user intensity =
        [Effect.registryLookup (pyStrip to_user),
         Effect.send session.sid (SMsg.error "User is offline") (sendOk session.sid)]) := by
  have hbase : handle_earthquake sendOk clients session to_user intensity =
      Effect.registryLookup (pyStrip to_user) ::
        match dictGet (pyStrip to_user) clients with
        | some rsid =>
          [Effect.send rsid
             (SMsg.earthquake_recv (session.username.getD "") (max 1 (min 10 intensity)))
             (sendOk rsid)]
        | none =>
          [Effect.send session.sid (SMsg.error "User is offline") (sendOk session.sid)] := by
    simp [handle_earthquake, hauth]
  refine ⟨?_, ?_⟩
  · intro rsid hlook
    rw [hbase, hlook, husr]
    refine ⟨rfl, ?_, ?_⟩
    · simp [List.countP_cons, Effect.isReplySend, Effect.isRegistryLookup]
    · intro hne
      simp [List.countP_cons, Effect.sendsTo, hne]
  · intro hlook
    rw [hbase, hlook]

/-- C10 witness: alice signals online bob (socket 2) while every socket
write fails; the trace is only the failed forward, with no reply of any
kind to alice. -/
theorem C10_earthquake_witness :
    handle_earthquake sendFail0 [("bob", 2)] sessAlice "bob" 20 =
      [Effect.registryLookup (pyStrip "bob"),
       Effect.send 2 (SMsg.earthquake_recv "alice" (max 1 (min 10 20))) (sendFail0 2)] ∧
    (handle_earthquake sendFail0 [("bob", 2)] sessAlice "bob" 20).countP
      Effect.isReplySend = 0 := by
  have h := C10_earthquake sendFail0 [("bob", 2)] sessAlice "bob" 20 "alice"
    (by decide) (by decide)
  exact ⟨(h.1 2 (by decide)).1, (h.1 2 (by decide)).2.1⟩

/-- No presence broadcast ever emits an effect satisfying a predicate that
is false on every send. -/
theorem countP_broadcast_eq_zero (q : Effect → Bool)
    (hq : ∀ t m o, q (Effect.send t m o) = false) (clients : List (String × Nat))
    (session : ClientSession) (status : PresenceStatus) (sendOk : Nat → Bool) :
    (broadcast_presence clients session status sendOk).countP q = 0 := by
  rw [List.countP_eq_zero]
  intro e he
  simp only [broadcast_presence] at he
  split at he
  · split at he
    · obtain ⟨p, hp, he2⟩ := List.mem_map.mp he
      rw [← he2]
      simp [hq]
    · simp at he
  · simp at he

/-- Appending a single fresh key to the registry leaves every other key's
lookup unchanged. -/
theorem dictGet_append_single (v k : String) (w : Nat) (d : List (String × Nat))
    (h : v ≠ k) : dictGet v (d ++ [(k, w)]) = dictGet v d := by
  induction d with
  | nil =>
    simp [dictGet, List.find?, beq_eq_false_iff_ne.mpr (Ne.symm h)]
  | cons p d ih =>
    rcases hp : p.1 == v with _ | _
    · simpa [dictGet, List.find?_cons, hp] using ih
    · simp [dictGet, List.find?_cons, hp]

/-- C4 counterexample: a login for a username already present in the
registry (with a store that would authenticate anything) replies failure
without ever performing an authentication query — authentication is not
performed first; the registry membership check is. -/
theorem C4_counterexample :
    (handle_login db0 sendOk0 [("alice", 2)] sess0 "alice" "secret").2.2 =
      [Effect.registryLookup "alice",
       Effect.send 1
         (SMsg.response ActionCode.LOGIN ResponseCode.FAIL "User already logged in") true] ∧
    (handle_login db0 sendOk0 [("alice", 2)] sess0 "alice" "secret").2.2.countP
      Effect.isAuthQuery = 0 := by
  decide

/-- C4 (amended): for a login whose (stripped) username is absent from the
registry, exactly one authentication query is performed, no registry
insertion precedes it, every other key's registry entry is untouched
(insertion — which happens only on authentication success — appends a
fresh entry and never overwrites), and on authentication failure the
registry is unchanged with no insertion at all.  (When the username is
already present, the dispatcher replies failure before consulting the
store — see the counterexample and C5.) -/
theorem C4_auth_before_insert (db : DB) (sendOk : Nat → Bool)
    (clients : List (String × Nat)) (session : ClientSession)
    (username password : String)
    (hmem : dictMem (pyStrip username) clients = false) :
    (handle_login db sendOk clients session username password).2.2.countP
      Effect.isAuthQuery = 1 ∧
    ((handle_login db sendOk clients session username password).2.2.takeWhile
      (fun e => !e.isAuthQuery)).countP Effect.isRegistryInsert = 0 ∧
    (∀ v, v ≠ pyStrip username →
      dictGet v (handle_login db sendOk clients session username password).1 =
        dictGet v clients) ∧
    ((db.authenticate_user (pyStrip username) password).1 = false →
      (handle_login db sendOk clients session username password).1 = clients ∧
      (handle_login db sendOk clients session username password).2.2.countP
        Effect.isRegistryInsert = 0) ∧
    ((db.authenticate_user (pyStrip username) password).1 = true →
      (handle_login db sendOk clients session username password).1 =
        clients ++ [(pyStrip username, session.sid)]) := by
  have hbAuth : ∀ (cl : List (String × Nat)) (s : ClientSession) (st : PresenceStatus)
      (so : Nat → Bool), (broadcast_presence cl s st so).countP Effect.isAuthQuery = 0 :=
    fun cl s st so => countP_broadcast_eq_zero _ (fun _ _ _ => rfl) cl s st so
  simp only [handle_login, hmem, Bool.false_eq_true, if_false]
  rcases hdb : db.authenticate_user (pyStrip username) password with ⟨success, message, uid⟩
  cases success with
  | true =>
    have hins : dictInsert (pyStrip username) session.sid clients =
        clients ++ [(pyStrip username, session.sid)] := by
      simp [dictInsert, hmem]
    refine ⟨?_, ?_, ?_, ?_, ?_⟩
    · simp [hdb, List.countP_cons, List.countP_append, Effect.isAuthQuery, hbAuth]
    · simp [hdb, List.takeWhile_cons, Effect.isAuthQuery, Effect.isRegistryInsert,
        List.countP_cons]
    · intro v hv
      simp only [hdb]
      simp only [hins]
      simpa using dictGet_append_single v _ _ clients hv
    · intro hfalse
      simp at hfalse
    · intro _
      simp [hdb, hins]
  | false =>
    refine ⟨?_, ?_, ?_, ?_, ?_⟩
    · simp [hdb, List.countP_cons, Effect.isAuthQuery]
    · simp [hdb, List.takeWhile_cons, Effect.isAuthQuery, Effect.isRegistryInsert,
        List.countP_cons]
    · intro v _
      simp [hdb]
    · intro _
      refine ⟨by simp [hdb], by simp [hdb, List.countP_cons, Effect.isRegistryInsert]⟩
    · intro htrue
      simp at htrue

/-- C4 witness: a fresh login for alice against an empty registry performs
the authentication query and then appends the new entry. -/
theorem C4_auth_before_insert_witness :
    (handle_login db0 sendOk0 [] sess0 "alice" "pw").2.2.countP Effect.isAuthQuery = 1 ∧
    ((handle_login db0 sendOk0 [] sess0 "alice" "pw").2.2.takeWhile
      (fun e => !e.isAuthQuery)).countP Effect.isRegistryInsert = 0 ∧
    (handle_login db0 sendOk0 [] sess0 "alice" "pw").1 =
      [] ++ [(pyStrip "alice", sess0.sid)] := by
  have h := C4_auth_before_insert db0 sendOk0 [] sess0 "alice" "pw" (by decide)
  exact ⟨h.1, h.2.1, h.2.2.2.2 (by decide)⟩

/-- C9 counterexample: a session already authenticated as alice issues a
second login as bob; the dispatcher accepts it and rebinds the session's
username — the attribute is not set exactly once per connection. -/
theorem C9_counterexample :
    sessAlice.authenticated = true ∧
    sessAlice.username = some "alice" ∧
    (dispatch db0 sendOk0 "t" [("alice", 1)] sessAlice
      (InMsg.login "bob" "pw")).2.1.username = some "bob" := by
  decide

/-- C9 (amended): the username attribute changes only through a login
command whose (stripped) username is absent from the registry and whose
authentication succeeds, and then it is set to that stripped username with
the authenticated flag raised — i.e. it is (re)bound at every successful
login, not only the first; no other command ever changes it. -/
theorem C9_username_set_only_by_login (db : DB) (sendOk : Nat → Bool) (now : String)
    (clients : List (String × Nat)) (session : ClientSession) (m : InMsg)
    (hch : (dispatch db sendOk now clients session m).2.1.username ≠ session.username) :
    ∃ u p, m = InMsg.login u p ∧
      dictMem (pyStrip u) clients = false ∧
      (db.authenticate_user (pyStrip u) p).1 = true ∧
      (dispatch db sendOk now clients session m).2.1.username = some (pyStrip u) ∧
      (dispatch db sendOk now clients session m).2.1.authenticated = true := by
  cases m
  case login u p =>
    by_cases hmem : dictMem (pyStrip u) clients = true
    · exact absurd (by simp [dispatch, handle_login, hmem]) hch
    · have hmem' : dictMem (pyStrip u) clients = false := by simpa using hmem
      rcases hdb : db.authenticate_user (pyStrip u) p with ⟨success, message, uid⟩
      cases success with
      | false => exact absurd (by simp [dispatch, handle_login, hmem', hdb]) hch
      | true =>
        refine ⟨u, p, rfl, hmem', by rw [hdb], ?_, ?_⟩
        · simp [dispatch, handle_login, hmem', hdb]
        · simp [dispatch, handle_login, hmem', hdb]
  all_goals simp [dispatch] at hch

/-- C9 witness: the amended statement evaluated on a concrete rebinding
login (alice's session logs in again as bob). -/
theorem C9_username_set_only_by_login_witness :
    ∃ u p, InMsg.login "bob" "pw" = InMsg.login u p ∧
      dictMem (pyStrip u) [("alice", 1)] = false ∧
      (db0.authenticate_user (pyStrip u) p).1 = true ∧
      (dispatch db0 sendOk0 "t" [("alice", 1)] sessAlice
        (InMsg.login "bob" "pw")).2.1.username = some (pyStrip u) ∧
      (dispatch db0 sendOk0 "t" [("alice", 1)] sessAlice
        (InMsg.login "bob" "pw")).2.1.authenticated = true :=
  C9_username_set_only_by_login db0 sendOk0 "t" [("alice", 1)] sessAlice
    (InMsg.login "bob" "pw") (by decide)

/-- C6 counterexample: a logout on an unauthenticated session produces no
reply at all and terminates the read loop (the connection closes) —
not an authentication-required error with the connection staying open. -/
theorem C6_counterexample :
    (dispatch db0 sendOk0 "t" [] sess0 InMsg.logout).2.2 = ([], false) := by
  decide

/-- C6 (amended): on an unauthenticated session, each of the eight
authenticated-only client commands (send-message, add/remove-contact,
contact-list request, user search, earthquake, avatar set/get) yields a
"Not authenticated" error reply with the loop continuing; `logout` yields
no reply and ends the loop; every other decoded command besides `register`
and `login` yields an "Unknown command" error reply with the loop
continuing — and these three groups together with register/login cover all
commands. -/
theorem C6_unauthenticated (db : DB) (sendOk : Nat → Bool) (now : String)
    (clients : List (String × Nat)) (session : ClientSession) (m : InMsg)
    (hauth : session.authenticated = false) :
    (isAuthOnlyCmd m = true →
      (dispatch db sendOk now clients session m).2.2 =
        ([Effect.send session.sid (SMsg.error "Not authenticated") (sendOk session.sid)],
          true)) ∧
    (m = InMsg.logout →
      (dispatch db sendOk now clients session m).2.2 = ([], false)) ∧
    (isUnknownCmd m = true →
      (dispatch db sendOk now clients session m).2.2 =
        ([Effect.send session.sid (SMsg.error "Unknown command") (sendOk session.sid)],
          true)) ∧
    (isAuthOnlyCmd m = false → isUnknownCmd m = false →
      m = InMsg.logout ∨ (∃ u p, m = InMsg.register u p) ∨
        (∃ u p, m = InMsg.login u p)) := by
  refine ⟨?_, ?_, ?_, ?_⟩
  · intro hcmd
    cases m <;> simp [isAuthOnlyCmd] at hcmd <;>
      simp [dispatch, handle_send_msg, handle_add_contact, handle_remove_contact,
        handle_get_contacts, handle_search_user, handle_earthquake, handle_avatar_set,
        handle_avatar_get, hauth]
  · intro hm
    subst hm
    simp [dispatch, handle_logout, hauth]
  · intro hcmd
    cases m <;> simp [isUnknownCmd] at hcmd <;> simp [dispatch]
  · intro h1 h2
    cases m <;> simp_all [isAuthOnlyCmd, isUnknownCmd]

/-- C6 witness: the amended statement's branches evaluated concretely — a
send-message before login gets the error and the loop continues; a decoded
server-to-client shape gets "Unknown command". -/
theorem C6_unauthenticated_witness :
    (dispatch db0 sendOk0 "t" [] sess0 (InMsg.send_msg "bob" "hi" "m1")).2.2 =
      ([Effect.send sess0.sid (SMsg.error "Not authenticated") (sendOk0 sess0.sid)],
        true) ∧
    (dispatch db0 sendOk0 "t" [] sess0 (InMsg.msg_ack "m1" AckStatus.DELIVERED)).2.2 =
      ([Effect.send sess0.sid (SMsg.error "Unknown command") (sendOk0 sess0.sid)],
        true) := by
  have h1 := C6_unauthenticated db0 sendOk0 "t" [] sess0 (InMsg.send_msg "bob" "hi" "m1")
    (by decide)
  have h2 := C6_unauthenticated db0 sendOk0 "t" [] sess0
    (InMsg.msg_ack "m1" AckStatus.DELIVERED) (by decide)
  exact ⟨h1.1 (by decide), h2.2.2.1 (by decide)⟩

/-- A presence broadcast never contains a registry removal. -/
theorem broadcast_presence_not_mem_remove (cl : List (String × Nat))
    (s : ClientSession) (st : PresenceStatus) (so : Nat → Bool) (u : String) :
    Effect.registryRemove u ∉ broadcast_presence cl s st so := by
  intro he
  simp only [broadcast_presence] at he
  split at he
  · split at he
    · obtain ⟨p, _, h2⟩ := List.mem_map.mp he
      simp at h2
    · simp at he
  · simp at he

/-- A list of effects free of removals has removal count zero. -/
theorem countP_remove_eq_zero_of_not_mem (l : List Effect)
    (h : ∀ u, Effect.registryRemove u ∉ l) :
    l.countP Effect.isRegistryRemove = 0 := by
  rw [List.countP_eq_zero]
  intro a ha
  cases a <;> first
    | exact absurd ha (h _)
    | simp [Effect.isRegistryRemove]

theorem handle_login_not_mem_remove (db : DB) (sendOk : Nat → Bool)
    (clients : List (String × Nat)) (session : ClientSession) (a b u : String) :
    Effect.registryRemove u ∉ (handle_login db sendOk clients session a b).2.2 := by
  intro he
  simp only [handle_login] at he
  repeat' split at he
  all_goals simp at he
  all_goals exact broadcast_presence_not_mem_remove _ _ _ _ _ he

/-- No dispatcher branch ever emits a registry removal: removals happen
only in `_cleanup_session`. -/
theorem dispatch_not_mem_remove (db : DB) (sendOk : Nat → Bool) (now : String)
    (clients : List (String × Nat)) (session : ClientSession) (m : InMsg) (u : String) :
    Effect.registryRemove u ∉ (dispatch db sendOk now clients session m).2.2.1 := by
  cases m with
  | login a b =>
    intro he
    rcases hl : handle_login db sendOk clients session a b with ⟨c1, s1, effs⟩
    simp only [dispatch, hl] at he
    have h := handle_login_not_mem_remove db sendOk clients session a b u
    rw [hl] at h
    exact h (by simpa using he)
  | _ =>
    intro he
    simp only [dispatch, handle_register, handle_logout, handle_send_msg,
      handle_add_contact, handle_remove_contact, handle_get_contacts,
      handle_search_user, handle_earthquake, handle_avatar_set,
      handle_avatar_get] at he
    repeat' split at he
    all_goals simp at he

theorem dispatch_no_remove (db : DB) (sendOk : Nat → Bool) (now : String)
    (clients : List (String × Nat)) (session : ClientSession) (m : InMsg) :
    (dispatch db sendOk now clients session m).2.2.1.countP
      Effect.isRegistryRemove = 0 :=
  countP_remove_eq_zero_of_not_mem _
    (fun u => dispatch_not_mem_remove db sendOk now clients session m u)

/-- The read loop itself (before the `finally` cleanup) never removes a
registry entry. -/
theorem client_loop_no_remove (db : DB) (sendOk : Nat → Bool) (now : String) :
    ∀ (inputs : List Inbound) (clients : List (String × Nat)) (session : ClientSession),
      (client_loop db sendOk now inputs clients session).2.2.countP
        Effect.isRegistryRemove = 0 := by
  intro inputs
  induction inputs with
  | nil =>
    intro c s
    simp [client_loop]
  | cons i rest ih =>
    intro c s
    cases i with
    | closed => simp [client_loop]
    | raised => simp [client_loop]
    | msg m =>
      simp only [client_loop]
      rcases hd : dispatch db sendOk now c s m with ⟨c1, s1, effs, cont⟩
      have h1 : effs.countP Effect.isRegistryRemove = 0 := by
        have h := dispatch_no_remove db sendOk now c s m
        rw [hd] at h
        exact h
      cases cont with
      | false => simpa using h1
      | true =>
        rcases hl : client_loop db sendOk now rest c1 s1 with ⟨c2, s2, effs2⟩
        have h2 : effs2.countP Effect.isRegistryRemove = 0 := by
          have h := ih c1 s1
          rw [hl] at h
          exact h
        simp [List.countP_append, h1, h2]

/-- The shape of `_cleanup_session` for a session that is authenticated
with a non-empty username: remove the entry if present, then broadcast
OFFLINE over the updated registry. -/
theorem cleanup_session_spec (sendOk : Nat → Bool) (clients : List (String × Nat))
    (session : ClientSession) (u : String)
    (hauth : session.authenticated = true) (husr : session.username = some u)
    (hne : u ≠ "") :
    cleanup_session sendOk clients session =
      ((if dictMem u clients then dictRemove u clients else clients), session,
        (if dictMem u clients then [Effect.registryRemove u] else []) ++
          broadcast_presence
            (if dictMem u clients then dictRemove u clients else clients)
            session PresenceStatus.OFFLINE sendOk) := by
  simp only [cleanup_session, hauth, husr]
  rw [if_neg hne]

/-- C7 counterexample: a connection that logs in successfully twice (first
as alice, then as bob — the dispatcher accepts the second login) produces
two successful-login replies but only one registry removal-plus-OFFLINE
broadcast, and alice's registry entry survives the connection — so the
removal does not happen exactly once per successful login. -/
theorem C7_counterexample :
    (handle_client db0 sendOk0 "t"
      [Inbound.msg (InMsg.login "alice" "x"), Inbound.msg (InMsg.login "bob" "x")]
      [] sess0).2.2.countP Effect.isLoginSuccessReply = 2 ∧
    (handle_client db0 sendOk0 "t"
      [Inbound.msg (InMsg.login "alice" "x"), Inbound.msg (InMsg.login "bob" "x")]
      [] sess0).2.2.countP Effect.isRegistryRemove = 1 ∧
    (handle_client db0 sendOk0 "t"
      [Inbound.msg (InMsg.login "alice" "x"), Inbound.msg (InMsg.login "bob" "x")]
      [] sess0).1 = [("alice", 1)] := by
  decide

/-- C7 (amended): the cleanup runs exactly once per connection, on every
exit path of the read loop — if the session is authenticated with a
(non-empty) username `u` when the loop exits, the full trace is the loop
trace (which contains no registry removal) followed by the cleanup, which
removes `u`'s entry when present and issues the OFFLINE broadcast; the
total number of removals is therefore exactly one when `u` is registered
at exit and the removal is per-connection, not per-successful-login. -/
theorem C7_cleanup_exactly_once (db : DB) (sendOk : Nat → Bool) (now : String)
    (inputs : List Inbound) (clients : List (String × Nat)) (session : ClientSession)
    (u : String)
    (hauth : (client_loop db sendOk now inputs clients session).2.1.authenticated = true)
    (husr : (client_loop db sendOk now inputs clients session).2.1.username = some u)
    (hne : u ≠ "") :
    (handle_client db sendOk now inputs clients session).2.2 =
      (client_loop db sendOk now inputs clients session).2.2 ++
        ((if dictMem u (client_loop db sendOk now inputs clients session).1 then
            [Effect.registryRemove u] else []) ++
          broadcast_presence
            (if dictMem u (client_loop db sendOk now inputs clients session).1 then
              dictRemove u (client_loop db sendOk now inputs clients session).1
             else (client_loop db sendOk now inputs clients session).1)
            (client_loop db sendOk now inputs clients session).2.1
            PresenceStatus.OFFLINE sendOk) ∧
    (client_loop db sendOk now inputs clients session).2.2.countP
      Effect.isRegistryRemove = 0 ∧
    (handle_client db sendOk now inputs clients session).2.2.countP
      Effect.isRegistryRemove =
      (if dictMem u (client_loop db sendOk now inputs clients session).1 then 1
       else 0) := by
  have hb : ∀ (cl : List (String × Nat)) (s : ClientSession) (st : PresenceStatus)
      (so : Nat → Bool),
      (broadcast_presence cl s st so).countP Effect.isRegistryRemove = 0 :=
    fun cl s st so => countP_broadcast_eq_zero _ (fun _ _ _ => rfl) cl s st so
  have hrm := client_loop_no_remove db sendOk now inputs clients session
  rcases hL : client_loop db sendOk now inputs clients session with ⟨c1, s1, e1⟩
  rw [hL] at hauth husr hrm
  simp only at hauth husr hrm
  have hcl := cleanup_session_spec sendOk c1 s1 u hauth husr hne
  have hhc : handle_client db sendOk now inputs clients session =
      ((if dictMem u c1 then dictRemove u c1 else c1), s1,
        e1 ++ ((if dictMem u c1 then [Effect.registryRemove u] else []) ++
          broadcast_presence (if dictMem u c1 then dictRemove u c1 else c1) s1
            PresenceStatus.OFFLINE sendOk)) := by
    simp only [handle_client, hL, hcl]
  refine ⟨?_, hrm, ?_⟩
  · rw [hhc]
  · rw [hhc]
    by_cases hm : dictMem u c1 = true <;>
      simp [hm, List.countP_append, List.countP_cons, Effect.isRegistryRemove, hrm, hb]

/-- C7 witness: a single-login connection whose input stream ends; the
whole-trace removal count is exactly one. -/
theorem C7_cleanup_exactly_once_witness :
    (handle_client db0 sendOk0 "t" [Inbound.msg (InMsg.login "alice" "x")]
      [] sess0).2.2.countP Effect.isRegistryRemove = 1 := by
  have h := C7_cleanup_exactly_once db0 sendOk0 "t"
    [Inbound.msg (InMsg.login "alice" "x")] [] sess0 "alice"
    (by decide) (by decide) (by decide)
  rw [h.2.2]
  decide

end QuickIM
